import Mathlib

/-!
# UDP transport set-up (`src/network/udp.c`): embedding and checked properties

The C functions of `udp.c` are embedded as state-passing Lean functions.  The state
is the chronological record (`Trace`) of the system calls and of the error/warning
messages the code issues.  The operating system is an explicit parameter (`World`):
it fixes what every system call returns.  Compile-time configuration (`#ifdef`) is an
explicit parameter too (`Platform`), and so is the configuration store (`Config`).

Conventions
* Descriptors and C return values are `Int` (`-1` is the failure value, as in C).
* A `struct sockaddr *` that may be `NULL` is an `Option SockAddr`.  Reading a field
  through a `NULL` pointer is undefined behaviour; the embedding makes it an explicit
  outcome (`Ret.fault`) that aborts the call.
* `msg_Dbg` lines are not recorded; `msg_Warn` and `msg_Err` lines are.
* `free`, `memset` and `vlc_freeaddrinfo` have no counterpart: memory is not modelled.
-/

namespace Udp

/-! ## Data model -/

/-- Address family tag of a socket address (`sa_family`, `ai_family`).  `AF_INET6` is
taken as defined by the platform headers. -/
inductive Family where
  | AF_INET
  | AF_INET6
  | other (n : Nat)
deriving DecidableEq, Repr

/-- A socket address as the code sees it.  The code never looks at a `struct sockaddr`
other than through its family tag and through a cast to `struct sockaddr_in` or
`struct sockaddr_in6`; the fields below are the values those reads yield
(`INADDR_ANY` and `in6addr_any` are the value `0`). -/
structure SockAddr where
  sa_family : Family
  sin_port : Nat
  sin_addr : Nat
  sin6_addr : Nat
  sin6_scope_id : Nat
deriving DecidableEq, Repr

/-- One resolved candidate (`struct addrinfo` without its `ai_next` link). -/
structure AddrInfo where
  ai_family : Family
  ai_socktype : Nat
  ai_protocol : Nat
  ai_addr : SockAddr
  ai_addrlen : Nat
deriving DecidableEq, Repr

/-- The `hints` argument of `vlc_getaddrinfo` (fields the code sets; the rest is zero). -/
structure Hints where
  ai_socktype : Nat
  ai_protocol : Nat
  ai_flags : Nat
deriving DecidableEq, Repr

def SOCK_DGRAM : Nat := 2
def IPPROTO_UDP : Nat := 17
def AI_PASSIVE : Nat := 1

/-- Socket level of a multicast request (`SOL_IP` / `SOL_IPV6`). -/
inductive Level where
  | SOL_IP
  | SOL_IPV6
deriving DecidableEq, Repr

/-- Every `setsockopt` request the file issues, with the option value it passes. -/
inductive SockOpt where
  | SO_RCVBUF (v : Nat)
  | SO_SNDBUF (v : Nat)
  | SO_BROADCAST (v : Nat)
  | SO_REUSEPORT (v : Nat)
  /-- Hop limit, `optlen` bytes wide (`sizeof (int)` first, then one byte). -/
  | mcastHops (family : Family) (v : Int) (optlen : Nat)
  | IPV6_MULTICAST_IF (scope : Nat)
  /-- `IP_MULTICAST_IF` with a `struct ip_mreqn` (interface index). -/
  | IP_MULTICAST_IF_mreqn (ifindex : Nat)
  /-- `IP_MULTICAST_IF` with a plain `struct in_addr`. -/
  | IP_MULTICAST_IF (ipv4 : Nat)
  | IP_TOS (v : Nat)
  | IPV6_TCLASS (v : Nat)
  /-- Unified any-source join (`struct group_req`). -/
  | MCAST_JOIN_GROUP (level : Level) (gr_interface : Nat) (gr_group : SockAddr)
      (grplen : Nat)
  /-- Unified source-specific join (`struct group_source_req`). -/
  | MCAST_JOIN_SOURCE_GROUP (level : Level) (gsr_interface : Nat) (gsr_group : SockAddr)
      (grplen : Nat) (gsr_source : SockAddr) (srclen : Nat)
  | IP_ADD_MEMBERSHIP (imr_multiaddr : Nat) (imr_interface : Nat)
  | IP_ADD_SOURCE_MEMBERSHIP (imr_multiaddr : Nat) (imr_sourceaddr : Nat)
      (imr_interface : Nat)
  | IPV6_JOIN_GROUP (ipv6mr_interface : Nat) (ipv6mr_multiaddr : Nat)
deriving DecidableEq, Repr

/-- Result of `connect`: success, or failure with `errno == ENETUNREACH`, or failure
with any other `errno`. -/
inductive ConnRes where
  | ok
  | ENETUNREACH
  | otherError
deriving DecidableEq, Repr

/-- The `msg_Warn` / `msg_Err` lines of the file. -/
inductive Msg where
  | hopLimitFamilyUnsupported
  | invalidMcastInterface
  | mcastOutIfaceError
  | invalidIPv4ForMcast
  | mcastOutAddrError
  | invalidMcastInterfaceAddr
  | cannotJoinIPv4
  | cannotJoinIPv6
  | mcastJoinError
  | tryingASM
  | mcastNotSupported
  | cannotResolve
  | connectWarning
  | hostUnreachable
  | cannotConnect
deriving DecidableEq, Repr

/-- One observable step of a run. -/
inductive Event where
  | getaddrinfo (host : Option String) (port : Int) (hints : Hints) (ok : Bool)
  /-- Call of `net_Socket` for the candidate at position `cand`; `fd` is its result. -/
  | socket (cand : Nat) (ai : AddrInfo) (fd : Int)
  | setsockopt (fd : Int) (opt : SockOpt) (ok : Bool)
  | getsockname (fd : Int) (res : Option Family)
  | bind (fd : Int) (addr : SockAddr) (len : Nat) (ok : Bool)
  | connect (fd : Int) (addr : SockAddr) (len : Nat) (res : ConnRes)
  | close (fd : Int)
  | msg (m : Msg)
deriving DecidableEq, Repr

abbrev Trace := List Event

/-- Compile-time configuration: which macros the platform headers define, and the sizes
of the address structures. -/
structure Platform where
  WIN32 : Bool
  SYS_BEOS : Bool
  linux : Bool
  IP_MULTICAST_TTL : Bool
  IPV6_MULTICAST_HOPS : Bool
  IPV6_MULTICAST_IF : Bool
  IP_MULTICAST_IF : Bool
  IP_ADD_MEMBERSHIP : Bool
  IP_ADD_SOURCE_MEMBERSHIP : Bool
  IPV6_JOIN_GROUP : Bool
  MCAST_JOIN_SOURCE_GROUP : Bool
  IPV6_TCLASS : Bool
  SO_REUSEPORT : Bool
  SO_RCVBUF : Bool
  sizeof_sockaddr_storage : Nat
  sizeof_sockaddr_in : Nat
  sizeof_sockaddr_in6 : Nat

/-- The configuration store (`var_CreateGetString` may return `NULL`: `none`). -/
structure Config where
  miface : Option String
  miface_addr : Option String
  ttl : Int
  dscp : Int

/-- The operating system and the collaborators outside this file.

Calls issued once per candidate are indexed by the candidate position(s): `net_Socket i`
and `bind i` for the `i`-th candidate of the outer loop, `connect i j` for the `i`-th
candidate of the outer loop and the `j`-th candidate of the inner loop (`j = 0` in
`__net_ConnectUDP`, which has no inner loop).  Each such call is issued at most once in
a run, so this fixes no more than the outcome of every call.  `setsockopt` and
`getsockname` can be issued several times with the same arguments; their outcome may
depend on everything that happened before. -/
structure World where
  vlc_getaddrinfo : Option String → Int → Hints → Except Int (List AddrInfo)
  net_Socket : Nat → Int
  bind : Nat → Bool
  connect : Nat → Nat → ConnRes
  setsockopt : Trace → Int → SockOpt → Bool
  getsockname : Trace → Int → Option Family
  if_nametoindex : String → Nat
  /-- `inet_pton (AF_INET, s, &a)`: the parsed address, `none` when the result is `<= 0`. -/
  inet_pton : String → Option Nat
  /-- `net_SockAddrIsMulticast` (declared in `vlc_network.h`). -/
  net_SockAddrIsMulticast : SockAddr → Nat → Bool

/-- Result of a call that can dereference `NULL`. -/
inductive Ret (α : Type) where
  | val (a : α)
  | fault
deriving DecidableEq, Repr

/-- `setsockopt`, recorded. `true` stands for the return value `0`. -/
def sys_setsockopt (W : World) (fd : Int) (o : SockOpt) (t : Trace) : Bool × Trace :=
  let ok := W.setsockopt t fd o
  (ok, t ++ [Event.setsockopt fd o ok])

/-! ## Multicast membership (`net_IPv4Join`, `net_IPv6Join`, `net_SourceSubscribe`) -/

/-- `net_IPv4Join` (udp.c:203-266): legacy IPv4 join, any-source when `src` is `NULL`. -/
def net_IPv4Join (P : Platform) (C : Config) (W : World) (fd : Int)
    (src : Option SockAddr) (grp : SockAddr) (t : Trace) : Int × Trace :=
  if P.IP_ADD_MEMBERSHIP then
    -- struct in_addr id = { .s_addr = INADDR_ANY }, overwritten by inet_pton
    let id : Option Nat :=
      match C.miface_addr with
      | none => some 0
      | some iface => if iface ≠ "" then W.inet_pton iface else some 0
    match id with
    | none =>
      -- goto error
      (-1, t ++ [Event.msg Msg.invalidMcastInterfaceAddr, Event.msg Msg.cannotJoinIPv4])
    | some id =>
      match src with
      | some s =>
        if P.IP_ADD_SOURCE_MEMBERSHIP then
          let r := sys_setsockopt W fd
            (SockOpt.IP_ADD_SOURCE_MEMBERSHIP grp.sin_addr s.sin_addr id) t
          if r.1 then (0, r.2) else (-1, r.2 ++ [Event.msg Msg.cannotJoinIPv4])
        else
          -- errno = ENOSYS; goto error
          (-1, t ++ [Event.msg Msg.cannotJoinIPv4])
      | none =>
        let r := sys_setsockopt W fd (SockOpt.IP_ADD_MEMBERSHIP grp.sin_addr id) t
        if r.1 then (0, r.2) else (-1, r.2 ++ [Event.msg Msg.cannotJoinIPv4])
  else
    (-1, t ++ [Event.msg Msg.cannotJoinIPv4])

/-- `net_IPv6Join` (udp.c:269-289): legacy IPv6 any-source join; the parameter the C
code calls `src` is the group address. -/
def net_IPv6Join (P : Platform) (W : World) (fd : Int) (src : SockAddr) (t : Trace) :
    Int × Trace :=
  if P.IPV6_JOIN_GROUP then
    let r := sys_setsockopt W fd (SockOpt.IPV6_JOIN_GROUP src.sin6_scope_id src.sin6_addr) t
    if r.1 then (0, r.2) else (-1, r.2 ++ [Event.msg Msg.cannotJoinIPv6])
  else
    -- errno = ENOSYS
    (-1, t ++ [Event.msg Msg.cannotJoinIPv6])

/-- Lines 333-347 of `net_SourceSubscribe`: the interface index taken from the `miface`
setting; `none` when the name does not resolve (the function then returns `-1`). -/
def subscribeInterface (C : Config) (W : World) : Option Nat :=
  match C.miface with
  | none => some 0
  | some iface =>
    if iface ≠ "" then
      if W.if_nametoindex iface = 0 then none else some (W.if_nametoindex iface)
    else some 0

/-- What the `switch (grp->sa_family)` of lines 349-375 leaves behind. -/
inductive Normalized where
  /-- Fell out of the switch with these values of `level`, `src` and `iid`. -/
  | go (level : Level) (src : Option SockAddr) (iid : Nat)
  /-- The `default:` label: `errno = EAFNOSUPPORT; return -1`. -/
  | unsupported
  /-- Line 359 read `sin6_scope_id` through a `NULL` `src`. -/
  | nullDeref
deriving DecidableEq, Repr

/-- Lines 349-375 of `net_SourceSubscribe`: wildcard sources are dropped, and for an
IPv6 group the scope identifier of `src` is read (whatever `src` is by then). -/
def normalizeSource (src : Option SockAddr) (grp : SockAddr) (iid : Nat) : Normalized :=
  match grp.sa_family with
  | Family.AF_INET6 =>
    let src1 : Option SockAddr :=
      match src with
      | some s => if s.sin6_addr = 0 then none else some s
      | none => none
    match src1 with
    | some s =>
      Normalized.go Level.SOL_IPV6 (some s)
        (if s.sin6_scope_id ≠ 0 then s.sin6_scope_id else iid)
    | none => Normalized.nullDeref
  | Family.AF_INET =>
    let src1 : Option SockAddr :=
      match src with
      | some s => if s.sin_addr = 0 then none else some s
      | none => none
    Normalized.go Level.SOL_IP src1 iid
  | Family.other _ => Normalized.unsupported

/-- Lines 378-415 of `net_SourceSubscribe` (compiled when `MCAST_JOIN_SOURCE_GROUP` is
defined): the unified join.  `some r` is `return r`; `none` falls through to the
per-family code. -/
def unifiedJoin (P : Platform) (W : World) (fd : Int) (level : Level) (iid : Nat)
    (src : Option SockAddr) (srclen : Nat) (grp : SockAddr) (grplen : Nat) (t : Trace) :
    Option Int × Trace :=
  if P.MCAST_JOIN_SOURCE_GROUP then
    match src with
    | some s =>
      if grplen > P.sizeof_sockaddr_storage ∨ srclen > P.sizeof_sockaddr_storage then
        (some (-1), t)
      else
        let r := sys_setsockopt W fd
          (SockOpt.MCAST_JOIN_SOURCE_GROUP level iid grp grplen s srclen) t
        if r.1 then (some 0, r.2) else (none, r.2)
    | none =>
      if grplen > P.sizeof_sockaddr_storage then
        (some (-1), t)
      else
        let r := sys_setsockopt W fd (SockOpt.MCAST_JOIN_GROUP level iid grp grplen) t
        if r.1 then (some 0, r.2) else (none, r.2)
  else
    (none, t)

/-- The test of line 418: `(src != NULL) && (src->sa_family != grp->sa_family)`. -/
def familyMismatch (src : Option SockAddr) (grp : SockAddr) : Bool :=
  match src with
  | some s => decide (s.sa_family ≠ grp.sa_family)
  | none => false

/-- Lines 417-446 of `net_SourceSubscribe`: the per-family fallback.  `some r` is
`return r`; `none` leaves the switch (a failed join, or a family without a case). -/
def legacyJoin (P : Platform) (C : Config) (W : World) (fd : Int)
    (src : Option SockAddr) (srclen : Nat) (grp : SockAddr) (grplen : Nat) (t : Trace) :
    Option Int × Trace :=
  if familyMismatch src grp then
    (some (-1), t)
  else
    match grp.sa_family with
    | Family.AF_INET =>
      if grplen < P.sizeof_sockaddr_in ∨ (src ≠ none ∧ srclen < P.sizeof_sockaddr_in) then
        (some (-1), t)
      else
        let r := net_IPv4Join P C W fd src grp t
        if r.1 = 0 then (some 0, r.2) else (none, r.2)
    | Family.AF_INET6 =>
      if grplen < P.sizeof_sockaddr_in6 ∨ (src ≠ none ∧ srclen < P.sizeof_sockaddr_in6) then
        (some (-1), t)
      else
        let r := net_IPv6Join P W fd grp t
        if r.1 = 0 then (some 0, r.2) else (none, r.2)
    | Family.other _ => (none, t)

/-- Lines 377-446 of `net_SourceSubscribe`: the unified join, then the per-family
fallback.  `some r` is `return r`; `none` reaches the error message of line 448. -/
def joinAttempts (P : Platform) (C : Config) (W : World) (fd : Int) (level : Level)
    (iid : Nat) (src : Option SockAddr) (srclen : Nat) (grp : SockAddr) (grplen : Nat)
    (t : Trace) : Option Int × Trace :=
  match unifiedJoin P W fd level iid src srclen grp grplen t with
  | (some r, t1) => (some r, t1)
  | (none, t1) => legacyJoin P C W fd src srclen grp grplen t1

set_option linter.unusedVariables false in
mutual
/-- `net_SourceSubscribe` (udp.c:326-459). -/
def net_SourceSubscribe (P : Platform) (C : Config) (W : World) (fd : Int)
    (src : Option SockAddr) (srclen : Nat) (grp : SockAddr) (grplen : Nat) (t : Trace) :
    Ret Int × Trace :=
  match subscribeInterface C W with
  | none => (Ret.val (-1), t ++ [Event.msg Msg.invalidMcastInterface])
  | some iid0 =>
    match hn : normalizeSource src grp iid0 with
    | Normalized.nullDeref => (Ret.fault, t)
    | Normalized.unsupported => (Ret.val (-1), t)
    | Normalized.go level src1 iid =>
      match joinAttempts P C W fd level iid src1 srclen grp grplen t with
      | (some r, t1) => (Ret.val r, t1)
      | (none, t1) =>
        if hs : src1.isSome then
          net_Subscribe P C W fd grp grplen
            (t1 ++ [Event.msg Msg.mcastJoinError, Event.msg Msg.tryingASM])
        else
          (Ret.val (-1),
            t1 ++ [Event.msg Msg.mcastJoinError, Event.msg Msg.mcastNotSupported])
termination_by (if src.isSome then 2 else 0)
decreasing_by
  cases src with
  | none =>
    exfalso
    unfold normalizeSource at hn
    cases hg : grp.sa_family <;> simp [hg] at hn
    obtain ⟨-, h, -⟩ := hn
    subst h
    simp at hs
  | some s => simp

/-- `net_Subscribe` (udp.c:462-466): the public any-source entry. -/
def net_Subscribe (P : Platform) (C : Config) (W : World) (fd : Int)
    (addr : SockAddr) (addrlen : Nat) (t : Trace) : Ret Int × Trace :=
  net_SourceSubscribe P C W fd none 0 addr addrlen t
termination_by 1
decreasing_by simp
end

/-! ## Socket options (`net_SetMcastHopLimit`, `net_SetMcastOut`, `net_SetDSCP`) -/

/-- `net_SetMcastHopLimit` (udp.c:77-118); `true` stands for `VLC_SUCCESS`. -/
def net_SetMcastHopLimit (P : Platform) (W : World) (fd : Int) (family : Family)
    (hlim : Int) (t : Trace) : Bool × Trace :=
  if (family = Family.AF_INET ∧ P.IP_MULTICAST_TTL = true)
      ∨ (family = Family.AF_INET6 ∧ P.IPV6_MULTICAST_HOPS = true) then
    let r := sys_setsockopt W fd (SockOpt.mcastHops family hlim 4) t
    if r.1 then (true, r.2)
    else
      -- BSD compatibility: buf = (unsigned char)((hlim > 255) ? 255 : hlim)
      let buf : Int := (if hlim > 255 then 255 else hlim) % 256
      let r2 := sys_setsockopt W fd (SockOpt.mcastHops family buf 1) r.2
      if r2.1 then (true, r2.2) else (false, r2.2)
  else
    (false, t ++ [Event.msg Msg.hopLimitFamilyUnsupported])

/-- `net_SetMcastOutIface` (udp.c:121-144); `true` stands for the return value `0`. -/
def net_SetMcastOutIface (P : Platform) (W : World) (fd : Int) (family : Family)
    (scope : Nat) (t : Trace) : Bool × Trace :=
  match family with
  | Family.AF_INET6 =>
    if P.IPV6_MULTICAST_IF then sys_setsockopt W fd (SockOpt.IPV6_MULTICAST_IF scope) t
    else (false, t)
  | Family.AF_INET =>
    if P.linux then sys_setsockopt W fd (SockOpt.IP_MULTICAST_IF_mreqn scope) t
    else (false, t)
  | Family.other _ => (false, t)

/-- `net_SetMcastOutIPv4` (udp.c:147-155); `true` stands for the return value `0`. -/
def net_SetMcastOutIPv4 (P : Platform) (W : World) (fd : Int) (ipv4 : Nat) (t : Trace) :
    Bool × Trace :=
  if P.IP_MULTICAST_IF then sys_setsockopt W fd (SockOpt.IP_MULTICAST_IF ipv4) t
  else (false, t)

/-- Second half of `net_SetMcastOut` (udp.c:176-195): the `addr` argument. -/
def net_SetMcastOut_addr (P : Platform) (W : World) (fd : Int) (family : Family)
    (addr : Option String) (t : Trace) : Int × Trace :=
  match addr with
  | some a =>
    if family = Family.AF_INET then
      match W.inet_pton a with
      | none => (-1, t ++ [Event.msg Msg.invalidIPv4ForMcast])
      | some ipv4 =>
        let r := net_SetMcastOutIPv4 P W fd ipv4 t
        if r.1 then (0, r.2) else (-1, r.2 ++ [Event.msg Msg.mcastOutAddrError])
    else (-1, t)
  | none => (-1, t)

/-- `net_SetMcastOut` (udp.c:158-196). -/
def net_SetMcastOut (P : Platform) (W : World) (fd : Int) (family : Family)
    (iface : Option String) (addr : Option String) (t : Trace) : Int × Trace :=
  match iface with
  | some name =>
    if W.if_nametoindex name = 0 then
      (-1, t ++ [Event.msg Msg.invalidMcastInterface])
    else
      let r := net_SetMcastOutIface P W fd family (W.if_nametoindex name) t
      if r.1 then (0, r.2)
      else net_SetMcastOut_addr P W fd family addr (r.2 ++ [Event.msg Msg.mcastOutIfaceError])
  | none => net_SetMcastOut_addr P W fd family addr t

/-- `net_SetDSCP` (udp.c:469-499); `dscp` is the `uint8_t` argument. -/
def net_SetDSCP (P : Platform) (W : World) (fd : Int) (dscp : Nat) (t : Trace) :
    Int × Trace :=
  let fam := W.getsockname t fd
  let t1 := t ++ [Event.getsockname fd fam]
  match fam with
  | none => (-1, t1)
  | some Family.AF_INET6 =>
    if P.IPV6_TCLASS then
      let r := sys_setsockopt W fd (SockOpt.IPV6_TCLASS dscp) t1
      (if r.1 then 0 else -1, r.2)
    else (-1, t1)
  | some Family.AF_INET =>
    let r := sys_setsockopt W fd (SockOpt.IP_TOS dscp) t1
    (if r.1 then 0 else -1, r.2)
  | some (Family.other _) => (-1, t1)

/-! ## Outbound: `__net_ConnectUDP` -/

/-- Lines 542-571 of `__net_ConnectUDP`: the options applied to a fresh socket.  Every
return value is discarded by the C code; only the record of the calls remains. -/
def connectOptions (P : Platform) (C : Config) (W : World) (hlim : Int) (fd : Int)
    (family : Family) (t : Trace) : Trace :=
  let t1 :=
    if P.SYS_BEOS then t
    else
      let a := (sys_setsockopt W fd (SockOpt.SO_RCVBUF 0x80000) t).2
      let b := (sys_setsockopt W fd (SockOpt.SO_SNDBUF 0x80000) a).2
      (sys_setsockopt W fd (SockOpt.SO_BROADCAST 1) b).2
  let t2 := if hlim > 0 then (net_SetMcastHopLimit P W fd family hlim t1).2 else t1
  let t3 :=
    match C.miface with
    | some str => if str ≠ "" then (net_SetMcastOut P W fd family (some str) none t2).2 else t2
    | none => t2
  let t4 :=
    match C.miface_addr with
    | some str => if str ≠ "" then (net_SetMcastOut P W fd family none (some str) t3).2 else t3
    | none => t3
  (net_SetDSCP P W fd (C.dscp % 256).toNat t4).2

/-- The candidate loop of `__net_ConnectUDP` (udp.c:534-593), entered at the candidate of
position `i` with the current value of `b_unreach`.  It yields `i_handle` and
`b_unreach` as they stand when the loop is left. -/
def connectLoop (P : Platform) (C : Config) (W : World) (hlim : Int) :
    List AddrInfo → Nat → Bool → Trace → (Int × Bool) × Trace
  | [], _, b_unreach, t => ((-1, b_unreach), t)
  | ptr :: rest, i, b_unreach, t =>
    let fd := W.net_Socket i
    let t0 := t ++ [Event.socket i ptr fd]
    if fd = -1 then connectLoop P C W hlim rest (i + 1) b_unreach t0
    else
      let t1 := connectOptions P C W hlim fd ptr.ai_family t0
      match W.connect i 0 with
      | ConnRes.ok =>
        ((fd, b_unreach), t1 ++ [Event.connect fd ptr.ai_addr ptr.ai_addrlen ConnRes.ok])
      | ConnRes.ENETUNREACH =>
        -- b_unreach = VLC_TRUE; the body ends here
        connectLoop P C W hlim rest (i + 1) true
          (t1 ++ [Event.connect fd ptr.ai_addr ptr.ai_addrlen ConnRes.ENETUNREACH])
      | ConnRes.otherError =>
        connectLoop P C W hlim rest (i + 1) b_unreach
          (t1 ++ [Event.connect fd ptr.ai_addr ptr.ai_addrlen ConnRes.otherError,
                  Event.msg Msg.connectWarning, Event.close fd])

/-- `__net_ConnectUDP` (udp.c:508-606). -/
def __net_ConnectUDP (P : Platform) (C : Config) (W : World) (psz_host : Option String)
    (i_port : Int) (i_hlim : Int) (t : Trace) : Int × Trace :=
  let i_port := if i_port = 0 then 1234 else i_port
  let i_hlim := if i_hlim < 1 then C.ttl else i_hlim
  let hints : Hints := { ai_socktype := SOCK_DGRAM, ai_protocol := 0, ai_flags := 0 }
  match W.vlc_getaddrinfo psz_host i_port hints with
  | Except.error _ =>
    (-1, t ++ [Event.getaddrinfo psz_host i_port hints false, Event.msg Msg.cannotResolve])
  | Except.ok res =>
    let r := connectLoop P C W i_hlim res 0 false
      (t ++ [Event.getaddrinfo psz_host i_port hints true])
    if r.1.1 = -1 then
      if r.1.2 then (-1, r.2 ++ [Event.msg Msg.hostUnreachable]) else (-1, r.2)
    else (r.1.1, r.2)

/-! ## Inbound: `__net_OpenUDP` -/

/-- The inner loop of `__net_OpenUDP` (udp.c:687-706) for the bound candidate `ptr` of
position `i`, entered at the remote candidate of position `j`.  The value is the
position of `ptr2` when the loop is left (`none`: `ptr2 == NULL`). -/
def openRemoteLoop (P : Platform) (C : Config) (W : World) (fd : Int) (ptr : AddrInfo)
    (i : Nat) : List AddrInfo → Nat → Trace → Ret (Option Nat) × Trace
  | [], _, t => (Ret.val none, t)
  | ptr2 :: rest, j, t =>
    if ptr2.ai_family ≠ ptr.ai_family ∨ ptr2.ai_socktype ≠ ptr.ai_socktype
        ∨ ptr2.ai_protocol ≠ ptr.ai_protocol then
      openRemoteLoop P C W fd ptr i rest (j + 1) t
    else if W.net_SockAddrIsMulticast ptr.ai_addr ptr.ai_addrlen then
      match net_SourceSubscribe P C W fd (some ptr2.ai_addr) ptr2.ai_addrlen
          ptr.ai_addr ptr.ai_addrlen t with
      | (Ret.fault, t1) => (Ret.fault, t1)
      | (Ret.val r, t1) =>
        if r = 0 then (Ret.val (some j), t1)
        else openRemoteLoop P C W fd ptr i rest (j + 1) t1
    else
      let r := W.connect i j
      let t1 := t ++ [Event.connect fd ptr2.ai_addr ptr2.ai_addrlen r]
      if r = ConnRes.ok then (Ret.val (some j), t1)
      else openRemoteLoop P C W fd ptr i rest (j + 1) t1

/-- Lines 652-663 of `__net_OpenUDP`: the options applied to a fresh socket. -/
def openOptions (P : Platform) (W : World) (fd : Int) (t : Trace) : Trace :=
  let t1 := if P.SO_REUSEPORT then (sys_setsockopt W fd (SockOpt.SO_REUSEPORT 1) t).2 else t
  if P.SO_RCVBUF then
    let a := (sys_setsockopt W fd (SockOpt.SO_RCVBUF 0x80000) t1).2
    (sys_setsockopt W fd (SockOpt.SO_SNDBUF 0x80000) a).2
  else t1

/-- The local wildcard address `dumb` of lines 670-674: family and port of `a`. -/
def dumbAddr (a : SockAddr) : SockAddr :=
  { sa_family := a.sa_family, sin_port := a.sin_port, sin_addr := 0, sin6_addr := 0,
    sin6_scope_id := 0 }

/-- The outer loop of `__net_OpenUDP` (udp.c:645-719), entered at the local candidate
of position `i`; `rem` is the resolved remote list. -/
def openLocalLoop (P : Platform) (C : Config) (W : World) (rem : List AddrInfo) :
    List AddrInfo → Nat → Trace → Ret Int × Trace
  | [], _, t => (Ret.val (-1), t)
  | ptr :: rest, i, t =>
    let fd := W.net_Socket i
    let t0 := t ++ [Event.socket i ptr fd]
    if fd = -1 then openLocalLoop P C W rem rest (i + 1) t0
    else
      let t1 := openOptions P W fd t0
      let inner (t2 : Trace) : Ret Int × Trace :=
        match openRemoteLoop P C W fd ptr i rem 0 t2 with
        | (Ret.fault, t3) => (Ret.fault, t3)
        | (Ret.val none, t3) =>
          openLocalLoop P C W rem rest (i + 1)
            (t3 ++ [Event.msg Msg.cannotConnect, Event.close fd])
        | (Ret.val (some _), t3) => (Ret.val fd, t3)
      if P.WIN32 = true ∧ W.net_SockAddrIsMulticast ptr.ai_addr ptr.ai_addrlen = true
          ∧ P.sizeof_sockaddr_storage ≥ ptr.ai_addrlen then
        -- the result of this bind is not looked at
        inner (t1 ++ [Event.bind fd (dumbAddr ptr.ai_addr) ptr.ai_addrlen (W.bind i)])
      else if W.bind i then
        inner (t1 ++ [Event.bind fd ptr.ai_addr ptr.ai_addrlen true])
      else
        openLocalLoop P C W rem rest (i + 1)
          (t1 ++ [Event.bind fd ptr.ai_addr ptr.ai_addrlen false, Event.close fd])

/-- `__net_OpenUDP` (udp.c:614-719). -/
def __net_OpenUDP (P : Platform) (C : Config) (W : World) (psz_bind : Option String)
    (i_bind : Int) (psz_server : Option String) (i_server : Int) (t : Trace) :
    Ret Int × Trace :=
  let hints : Hints :=
    { ai_socktype := SOCK_DGRAM, ai_protocol := IPPROTO_UDP, ai_flags := AI_PASSIVE }
  match W.vlc_getaddrinfo psz_server i_server hints with
  | Except.error _ =>
    (Ret.val (-1),
      t ++ [Event.getaddrinfo psz_server i_server hints false, Event.msg Msg.cannotResolve])
  | Except.ok rem =>
    match W.vlc_getaddrinfo psz_bind i_bind hints with
    | Except.error _ =>
      (Ret.val (-1),
        t ++ [Event.getaddrinfo psz_server i_server hints true,
              Event.getaddrinfo psz_bind i_bind hints false, Event.msg Msg.cannotResolve])
    | Except.ok loc =>
      openLocalLoop P C W rem loc 0
        (t ++ [Event.getaddrinfo psz_server i_server hints true,
               Event.getaddrinfo psz_bind i_bind hints true])

/-! ## Reading a trace -/

/-- The events that create, connect, bind or close a descriptor, and resolutions: what
is left of a run once option calls and messages are put aside. -/
def Event.isFlow : Event → Bool
  | Event.getaddrinfo _ _ _ _ => true
  | Event.socket _ _ _ => true
  | Event.bind _ _ _ _ => true
  | Event.connect _ _ _ _ => true
  | Event.close _ => true
  | Event.setsockopt _ _ _ => false
  | Event.getsockname _ _ => false
  | Event.msg _ => false

/-- The flow events of a trace, in order. -/
def flow (t : Trace) : Trace := t.filter Event.isFlow

/-- The multicast join primitives among the `setsockopt` requests. -/
def SockOpt.isJoin : SockOpt → Bool
  | SockOpt.MCAST_JOIN_GROUP _ _ _ _ => true
  | SockOpt.MCAST_JOIN_SOURCE_GROUP _ _ _ _ _ _ => true
  | SockOpt.IP_ADD_MEMBERSHIP _ _ => true
  | SockOpt.IP_ADD_SOURCE_MEMBERSHIP _ _ _ => true
  | SockOpt.IPV6_JOIN_GROUP _ _ => true
  | _ => false

/-- The source-specific join primitives. -/
def SockOpt.isSourceJoin : SockOpt → Bool
  | SockOpt.MCAST_JOIN_SOURCE_GROUP _ _ _ _ _ _ => true
  | SockOpt.IP_ADD_SOURCE_MEMBERSHIP _ _ _ => true
  | _ => false

/-- The any-source join primitives. -/
def SockOpt.isAnySourceJoin : SockOpt → Bool
  | SockOpt.MCAST_JOIN_GROUP _ _ _ _ => true
  | SockOpt.IP_ADD_MEMBERSHIP _ _ => true
  | SockOpt.IPV6_JOIN_GROUP _ _ => true
  | _ => false

/-- The join primitives invoked in a trace, in order, each with its outcome. -/
def joinCalls : Trace → List (Int × SockOpt × Bool)
  | [] => []
  | Event.setsockopt fd o ok :: t =>
    if o.isJoin then (fd, o, ok) :: joinCalls t else joinCalls t
  | _ :: t => joinCalls t

/-- The five join primitives. -/
inductive JoinPrimitive where
  | unifiedGroup
  | unifiedSourceGroup
  | ipv4AddMembership
  | ipv4AddSourceMembership
  | ipv6JoinGroup
deriving DecidableEq, Repr

/-- The join primitive a `setsockopt` request invokes, if any. -/
def SockOpt.primitive : SockOpt → Option JoinPrimitive
  | SockOpt.MCAST_JOIN_GROUP _ _ _ _ => some JoinPrimitive.unifiedGroup
  | SockOpt.MCAST_JOIN_SOURCE_GROUP _ _ _ _ _ _ => some JoinPrimitive.unifiedSourceGroup
  | SockOpt.IP_ADD_MEMBERSHIP _ _ => some JoinPrimitive.ipv4AddMembership
  | SockOpt.IP_ADD_SOURCE_MEMBERSHIP _ _ _ => some JoinPrimitive.ipv4AddSourceMembership
  | SockOpt.IPV6_JOIN_GROUP _ _ => some JoinPrimitive.ipv6JoinGroup
  | _ => none

/-- The wildcard address of its own family (`INADDR_ANY`, `in6addr_any`). -/
def SockAddr.isWildcard (s : SockAddr) : Prop :=
  (s.sa_family = Family.AF_INET ∧ s.sin_addr = 0)
    ∨ (s.sa_family = Family.AF_INET6 ∧ s.sin6_addr = 0)

/-- The wildcard test of lines 354-369 as the code performs it: the source is read
through the structure of the group's family. -/
def seenAsWildcard (grp : SockAddr) (s : SockAddr) : Bool :=
  match grp.sa_family with
  | Family.AF_INET => decide (s.sin_addr = 0)
  | Family.AF_INET6 => decide (s.sin6_addr = 0)
  | Family.other _ => false

/-- The unified primitive matching the (normalised) source. -/
def unifiedPrimitive (src : Option SockAddr) : JoinPrimitive :=
  if src.isSome then JoinPrimitive.unifiedSourceGroup else JoinPrimitive.unifiedGroup

/-- The legacy primitive the per-family code can invoke for this group and source. -/
def legacyPrimitive (src : Option SockAddr) (grp : SockAddr) : JoinPrimitive :=
  match grp.sa_family with
  | Family.AF_INET6 => JoinPrimitive.ipv6JoinGroup
  | _ => if src.isSome then JoinPrimitive.ipv4AddSourceMembership
         else JoinPrimitive.ipv4AddMembership

/-- Number of times the join primitive `k` is invoked in a trace. -/
def attempts (k : JoinPrimitive) (t : Trace) : Nat :=
  (joinCalls t).countP (fun c => decide (c.2.1.primitive = some k))

/-- Number of times `net_SourceSubscribe` went back into `net_Subscribe`: each time is
announced by the warning of line 453. -/
def asmRetries (t : Trace) : Nat := t.count (Event.msg Msg.tryingASM)

/-- Descriptors created (by a `net_Socket` that did not return `-1`) and not closed
since, oldest first. -/
def openHandles : Trace → List Int → List Int
  | [], acc => acc
  | Event.socket _ _ fd :: t, acc => openHandles t (if fd = -1 then acc else acc ++ [fd])
  | Event.close fd :: t, acc => openHandles t (acc.erase fd)
  | _ :: t, acc => openHandles t acc

/-- The steps of option application on descriptor `fd`: a `setsockopt` on `fd` that is
not a join, a `getsockname` on `fd`, or one of the messages of the option helpers. -/
def Event.isOptionStep (fd : Int) : Event → Bool
  | Event.setsockopt fd1 o _ => decide (fd1 = fd) && !o.isJoin
  | Event.getsockname fd1 _ => decide (fd1 = fd)
  | Event.msg m =>
    decide (m = Msg.hopLimitFamilyUnsupported ∨ m = Msg.invalidMcastInterface
      ∨ m = Msg.mcastOutIfaceError ∨ m = Msg.invalidIPv4ForMcast ∨ m = Msg.mcastOutAddrError)
  | _ => false

/-- Trace `u` is trace `t` followed by option steps on `fd` only. -/
def OptExt (fd : Int) (t u : Trace) : Prop :=
  ∃ o : Trace, u = t ++ o ∧ ∀ e ∈ o, e.isOptionStep fd = true

/-- Socket creation and `connect` both succeed for the candidate at position `k` of
`__net_ConnectUDP`. -/
abbrev World.connects (W : World) (k : Nat) : Prop :=
  W.net_Socket k ≠ -1 ∧ W.connect k 0 = ConnRes.ok

/-- The events a run of the loop of `__net_ConnectUDP` can add: flow events, option
steps, and the warning of line 588. -/
def Event.isConnectStep (e : Event) : Prop :=
  e.isFlow = true ∨ (∃ fd, e.isOptionStep fd = true) ∨ e = Event.msg Msg.connectWarning

/-- The pair (`i_handle`, `b_unreach`) the loop of `__net_ConnectUDP` ends with, read
off the outcomes of `net_Socket` and `connect` alone. -/
def connectResult (sock : Nat → Int) (conn : Nat → Nat → ConnRes) :
    List AddrInfo → Nat → Bool → Int × Bool
  | [], _, b => (-1, b)
  | _ :: rest, i, b =>
    if sock i = -1 then connectResult sock conn rest (i + 1) b
    else
      match conn i 0 with
      | ConnRes.ok => (sock i, b)
      | ConnRes.ENETUNREACH => connectResult sock conn rest (i + 1) true
      | ConnRes.otherError => connectResult sock conn rest (i + 1) b

/-- The flow events the loop of `__net_ConnectUDP` issues, read off the outcomes of
`net_Socket` and `connect` alone. -/
def connectFlow (sock : Nat → Int) (conn : Nat → Nat → ConnRes) :
    List AddrInfo → Nat → Trace
  | [], _ => []
  | ptr :: rest, i =>
    if sock i = -1 then Event.socket i ptr (sock i) :: connectFlow sock conn rest (i + 1)
    else
      match conn i 0 with
      | ConnRes.ok =>
        [Event.socket i ptr (sock i),
         Event.connect (sock i) ptr.ai_addr ptr.ai_addrlen ConnRes.ok]
      | ConnRes.ENETUNREACH =>
        Event.socket i ptr (sock i)
          :: Event.connect (sock i) ptr.ai_addr ptr.ai_addrlen ConnRes.ENETUNREACH
          :: connectFlow sock conn rest (i + 1)
      | ConnRes.otherError =>
        Event.socket i ptr (sock i)
          :: Event.connect (sock i) ptr.ai_addr ptr.ai_addrlen ConnRes.otherError
          :: Event.close (sock i)
          :: connectFlow sock conn rest (i + 1)

/-! ## Concrete platforms, settings and worlds -/

/-- A platform with every join primitive (a current Linux). -/
def linuxPlatform : Platform :=
  { WIN32 := false, SYS_BEOS := false, linux := true, IP_MULTICAST_TTL := true,
    IPV6_MULTICAST_HOPS := true, IPV6_MULTICAST_IF := true, IP_MULTICAST_IF := true,
    IP_ADD_MEMBERSHIP := true, IP_ADD_SOURCE_MEMBERSHIP := true, IPV6_JOIN_GROUP := true,
    MCAST_JOIN_SOURCE_GROUP := true, IPV6_TCLASS := true, SO_REUSEPORT := true,
    SO_RCVBUF := true, sizeof_sockaddr_storage := 128, sizeof_sockaddr_in := 16,
    sizeof_sockaddr_in6 := 28 }

/-- No multicast interface configured. -/
def plainConfig : Config := { miface := none, miface_addr := none, ttl := 1, dscp := 0 }

/-- The unicast destination 198.51.100.7, port 1234. -/
def hostAddr : SockAddr :=
  { sa_family := Family.AF_INET, sin_port := 1234, sin_addr := 0xC6336407, sin6_addr := 0,
    sin6_scope_id := 0 }

/-- The IPv4 multicast group 239.1.1.1, port 5004. -/
def group4 : SockAddr :=
  { sa_family := Family.AF_INET, sin_port := 5004, sin_addr := 0xEF010101, sin6_addr := 0,
    sin6_scope_id := 0 }

/-- The IPv6 multicast group ff3e::1, port 5004. -/
def group6 : SockAddr :=
  { sa_family := Family.AF_INET6, sin_port := 5004, sin_addr := 0,
    sin6_addr := 0xff3e0000000000000000000000000001, sin6_scope_id := 0 }

/-- The IPv6 source 2001:db8::7.  Read through `struct sockaddr_in`, the four bytes at
the place of `sin_addr` are its flow label, here `1`. -/
def source6 : SockAddr :=
  { sa_family := Family.AF_INET6, sin_port := 0, sin_addr := 1,
    sin6_addr := 0x20010db8000000000000000000000007, sin6_scope_id := 0 }

/-- A configuration naming a multicast interface. -/
def ifaceConfig : Config :=
  { miface := some "eth9", miface_addr := none, ttl := 1, dscp := 0 }

def hostCand : AddrInfo :=
  { ai_family := Family.AF_INET, ai_socktype := SOCK_DGRAM, ai_protocol := IPPROTO_UDP,
    ai_addr := hostAddr, ai_addrlen := 16 }

/-- A world where resolution yields `res`, the `i`-th socket is descriptor `3 + i`,
`connect` behaves as `conn` says and every other call is answered by `opt`. -/
def mkWorld (res : List AddrInfo) (conn : Nat → Nat → ConnRes) (opt : Bool) : World :=
  { vlc_getaddrinfo := fun _ _ _ => Except.ok res,
    net_Socket := fun i => 3 + (i : Int),
    bind := fun _ => opt,
    connect := conn,
    setsockopt := fun _ _ _ => opt,
    getsockname := fun _ _ => if opt then some Family.AF_INET else none,
    if_nametoindex := fun _ => 0,
    inet_pton := fun _ => none,
    net_SockAddrIsMulticast := fun a _ =>
      decide (a.sa_family = Family.AF_INET ∧ a.sin_addr / 0x10000000 = 0xE) }

/-- A Windows build: as `linuxPlatform`, with `WIN32` defined. -/
def windowsPlatform : Platform :=
  { linuxPlatform with WIN32 := true, linux := false, SO_REUSEPORT := false }

/-- The multicast group 239.1.1.1:5004 as a local candidate. -/
def groupCand : AddrInfo :=
  { ai_family := Family.AF_INET, ai_socktype := SOCK_DGRAM, ai_protocol := IPPROTO_UDP,
    ai_addr := group4, ai_addrlen := 16 }

/-- The unicast address 192.0.2.1:5004 as a local candidate. -/
def localCand : AddrInfo :=
  { ai_family := Family.AF_INET, ai_socktype := SOCK_DGRAM, ai_protocol := IPPROTO_UDP,
    ai_addr := { sa_family := Family.AF_INET, sin_port := 5004, sin_addr := 0xC0000201,
                 sin6_addr := 0, sin6_scope_id := 0 },
    ai_addrlen := 16 }

/-- A world for `__net_OpenUDP`: a named host resolves to `loc`, the absent host to
`rem`; the `i`-th socket is descriptor `3 + i`; `bind` answers `bindOk`, the join
primitives answer `joinOk`, every other call succeeds; no interface name resolves. -/
def mkOpenWorld (loc rem : List AddrInfo) (bindOk joinOk : Bool) : World :=
  { vlc_getaddrinfo := fun host _ _ =>
      match host with
      | some _ => Except.ok loc
      | none => Except.ok rem,
    net_Socket := fun i => 3 + (i : Int),
    bind := fun _ => bindOk,
    connect := fun _ _ => ConnRes.ok,
    setsockopt := fun _ _ o => if o.isJoin then joinOk else true,
    getsockname := fun _ _ => some Family.AF_INET,
    if_nametoindex := fun _ => 0,
    inet_pton := fun _ => none,
    net_SockAddrIsMulticast := fun a _ =>
      decide (a.sa_family = Family.AF_INET ∧ a.sin_addr / 0x10000000 = 0xE) }

/-- The IPv6 wildcard address `::` (`in6addr_any`) given as a source. -/
def wildcard6 : SockAddr :=
  { sa_family := Family.AF_INET6, sin_port := 0, sin_addr := 0, sin6_addr := 0,
    sin6_scope_id := 0 }

/-- The link-local IPv6 source fe80::7 with scope identifier 7. -/
def scopedSource6 : SockAddr :=
  { sa_family := Family.AF_INET6, sin_port := 0, sin_addr := 0,
    sin6_addr := 0xfe800000000000000000000000000007, sin6_scope_id := 7 }

/-- A world where every call succeeds and every interface name resolves to index 2. -/
def ifaceWorld : World :=
  { mkWorld [] (fun _ _ => ConnRes.ok) true with if_nametoindex := fun _ => 2 }

/-- The record of `__net_OpenUDP` bound to 239.1.1.1:5004 on `linuxPlatform`, with one
remote candidate, when every call succeeds. -/
def joinedTrace : Trace :=
  [Event.getaddrinfo none 0
      { ai_socktype := SOCK_DGRAM, ai_protocol := IPPROTO_UDP, ai_flags := AI_PASSIVE } true,
   Event.getaddrinfo (some "239.1.1.1") 5004
      { ai_socktype := SOCK_DGRAM, ai_protocol := IPPROTO_UDP, ai_flags := AI_PASSIVE } true,
   Event.socket 0 groupCand 3,
   Event.setsockopt 3 (SockOpt.SO_REUSEPORT 1) true,
   Event.setsockopt 3 (SockOpt.SO_RCVBUF 0x80000) true,
   Event.setsockopt 3 (SockOpt.SO_SNDBUF 0x80000) true,
   Event.bind 3 group4 16 true,
   Event.setsockopt 3
      (SockOpt.MCAST_JOIN_SOURCE_GROUP Level.SOL_IP 0 group4 16 hostAddr 16) true]

/-! ## Basic facts -/

theorem OptExt.refl (fd : Int) (t : Trace) : OptExt fd t t :=
  ⟨[], by simp, by simp⟩

theorem OptExt.trans {fd : Int} {a b c : Trace} (h1 : OptExt fd a b) (h2 : OptExt fd b c) :
    OptExt fd a c := by
  obtain ⟨o1, rfl, ho1⟩ := h1
  obtain ⟨o2, rfl, ho2⟩ := h2
  refine ⟨o1 ++ o2, by simp, ?_⟩
  intro e he
  rcases List.mem_append.1 he with h | h
  · exact ho1 e h
  · exact ho2 e h

theorem OptExt.snoc {fd : Int} {a b : Trace} (h1 : OptExt fd a b) (e : Event)
    (he : e.isOptionStep fd = true) : OptExt fd a (b ++ [e]) := by
  refine OptExt.trans h1 ⟨[e], rfl, ?_⟩
  intro x hx
  simp at hx
  subst hx
  exact he

theorem optExt_setsockopt (W : World) (fd : Int) (o : SockOpt) (t : Trace)
    (ho : o.isJoin = false) : OptExt fd t (sys_setsockopt W fd o t).2 := by
  refine (OptExt.refl fd t).snoc _ ?_
  simp [Event.isOptionStep, ho]

@[simp] theorem flow_nil : flow [] = [] := rfl

@[simp] theorem flow_cons (e : Event) (t : Trace) :
    flow (e :: t) = if e.isFlow then e :: flow t else flow t := by
  simp [flow, List.filter_cons]

@[simp] theorem flow_append (a b : Trace) : flow (a ++ b) = flow a ++ flow b := by
  simp [flow]

theorem sys_setsockopt_trace (W : World) (fd : Int) (o : SockOpt) (t : Trace) :
    (sys_setsockopt W fd o t).2 = t ++ [Event.setsockopt fd o (W.setsockopt t fd o)] := rfl

theorem sys_setsockopt_val (W : World) (fd : Int) (o : SockOpt) (t : Trace) :
    (sys_setsockopt W fd o t).1 = W.setsockopt t fd o := rfl

@[simp] theorem flow_sys_setsockopt (W : World) (fd : Int) (o : SockOpt) (t : Trace) :
    flow (sys_setsockopt W fd o t).2 = flow t := by
  simp [sys_setsockopt, Event.isFlow]

@[simp] theorem flow_net_SetMcastHopLimit (P : Platform) (W : World) (fd : Int)
    (family : Family) (hlim : Int) (t : Trace) :
    flow (net_SetMcastHopLimit P W fd family hlim t).2 = flow t := by
  unfold net_SetMcastHopLimit
  dsimp only
  repeat' split
  all_goals simp [Event.isFlow]

@[simp] theorem flow_net_SetMcastOutIface (P : Platform) (W : World) (fd : Int)
    (family : Family) (scope : Nat) (t : Trace) :
    flow (net_SetMcastOutIface P W fd family scope t).2 = flow t := by
  unfold net_SetMcastOutIface
  repeat' split
  all_goals simp

@[simp] theorem flow_net_SetMcastOutIPv4 (P : Platform) (W : World) (fd : Int) (ipv4 : Nat)
    (t : Trace) : flow (net_SetMcastOutIPv4 P W fd ipv4 t).2 = flow t := by
  unfold net_SetMcastOutIPv4
  split <;> simp

@[simp] theorem flow_net_SetMcastOut_addr (P : Platform) (W : World) (fd : Int)
    (family : Family) (addr : Option String) (t : Trace) :
    flow (net_SetMcastOut_addr P W fd family addr t).2 = flow t := by
  unfold net_SetMcastOut_addr
  dsimp only
  repeat' split
  all_goals simp [Event.isFlow]

@[simp] theorem flow_net_SetMcastOut (P : Platform) (W : World) (fd : Int) (family : Family)
    (iface addr : Option String) (t : Trace) :
    flow (net_SetMcastOut P W fd family iface addr t).2 = flow t := by
  unfold net_SetMcastOut
  dsimp only
  repeat' split
  all_goals simp [Event.isFlow]

@[simp] theorem flow_net_SetDSCP (P : Platform) (W : World) (fd : Int) (dscp : Nat)
    (t : Trace) : flow (net_SetDSCP P W fd dscp t).2 = flow t := by
  unfold net_SetDSCP
  dsimp only
  repeat' split
  all_goals simp [Event.isFlow]

@[simp] theorem flow_connectOptions (P : Platform) (C : Config) (W : World) (hlim : Int)
    (fd : Int) (family : Family) (t : Trace) :
    flow (connectOptions P C W hlim fd family t) = flow t := by
  unfold connectOptions
  dsimp only
  simp only [flow_net_SetDSCP]
  repeat' split
  all_goals simp

theorem optExt_net_SetMcastHopLimit (P : Platform) (W : World) (fd : Int) (family : Family)
    (hlim : Int) (t : Trace) : OptExt fd t (net_SetMcastHopLimit P W fd family hlim t).2 := by
  unfold net_SetMcastHopLimit
  dsimp only
  repeat' split
  all_goals first
    | exact optExt_setsockopt W fd _ t (by rfl)
    | exact (optExt_setsockopt W fd _ t (by rfl)).trans (optExt_setsockopt W fd _ _ (by rfl))
    | exact (OptExt.refl fd t).snoc _ (by rfl)

theorem optExt_net_SetMcastOutIface (P : Platform) (W : World) (fd : Int) (family : Family)
    (scope : Nat) (t : Trace) : OptExt fd t (net_SetMcastOutIface P W fd family scope t).2 := by
  unfold net_SetMcastOutIface
  repeat' split
  all_goals first
    | exact optExt_setsockopt W fd _ t (by rfl)
    | exact OptExt.refl fd t

theorem optExt_net_SetMcastOutIPv4 (P : Platform) (W : World) (fd : Int) (ipv4 : Nat)
    (t : Trace) : OptExt fd t (net_SetMcastOutIPv4 P W fd ipv4 t).2 := by
  unfold net_SetMcastOutIPv4
  split
  · exact optExt_setsockopt W fd _ t (by rfl)
  · exact OptExt.refl fd t

theorem optExt_net_SetMcastOut_addr (P : Platform) (W : World) (fd : Int) (family : Family)
    (addr : Option String) (t : Trace) :
    OptExt fd t (net_SetMcastOut_addr P W fd family addr t).2 := by
  unfold net_SetMcastOut_addr
  dsimp only
  repeat' split
  all_goals first
    | exact OptExt.refl fd t
    | exact (OptExt.refl fd t).snoc _ (by rfl)
    | exact optExt_net_SetMcastOutIPv4 P W fd _ t
    | exact (optExt_net_SetMcastOutIPv4 P W fd _ t).snoc _ (by rfl)

theorem optExt_net_SetMcastOut (P : Platform) (W : World) (fd : Int) (family : Family)
    (iface addr : Option String) (t : Trace) :
    OptExt fd t (net_SetMcastOut P W fd family iface addr t).2 := by
  unfold net_SetMcastOut
  dsimp only
  repeat' split
  all_goals first
    | exact (OptExt.refl fd t).snoc _ (by rfl)
    | exact optExt_net_SetMcastOutIface P W fd family _ t
    | exact optExt_net_SetMcastOut_addr P W fd family addr t
    | exact ((optExt_net_SetMcastOutIface P W fd family _ t).snoc _ (by rfl)).trans
        (optExt_net_SetMcastOut_addr P W fd family addr _)

theorem optExt_net_SetDSCP (P : Platform) (W : World) (fd : Int) (dscp : Nat) (t : Trace) :
    OptExt fd t (net_SetDSCP P W fd dscp t).2 := by
  have h0 : OptExt fd t (t ++ [Event.getsockname fd (W.getsockname t fd)]) :=
    (OptExt.refl fd t).snoc _ (by simp [Event.isOptionStep])
  unfold net_SetDSCP
  dsimp only
  repeat' split
  all_goals first
    | exact h0
    | exact h0.trans (optExt_setsockopt W fd _ _ (by rfl))

theorem optExt_connectOptions (P : Platform) (C : Config) (W : World) (hlim : Int)
    (fd : Int) (family : Family) (t : Trace) :
    OptExt fd t (connectOptions P C W hlim fd family t) := by
  unfold connectOptions
  dsimp only
  refine OptExt.trans ?_ (optExt_net_SetDSCP P W fd _ _)
  have h1 : OptExt fd t (if P.SYS_BEOS = true then t else
      (sys_setsockopt W fd (SockOpt.SO_BROADCAST 1)
        (sys_setsockopt W fd (SockOpt.SO_SNDBUF 0x80000)
          (sys_setsockopt W fd (SockOpt.SO_RCVBUF 0x80000) t).2).2).2) := by
    split
    · exact OptExt.refl fd t
    · exact ((optExt_setsockopt W fd _ t (by rfl)).trans (optExt_setsockopt W fd _ _ (by rfl))).trans
        (optExt_setsockopt W fd _ _ (by rfl))
  have h2 : ∀ u : Trace, OptExt fd u
      (if hlim > 0 then (net_SetMcastHopLimit P W fd family hlim u).2 else u) := by
    intro u
    split
    · exact optExt_net_SetMcastHopLimit P W fd family hlim u
    · exact OptExt.refl fd u
  have h3 : ∀ u : Trace, OptExt fd u (match C.miface with
      | some str =>
        if str ≠ "" then (net_SetMcastOut P W fd family (some str) none u).2 else u
      | none => u) := by
    intro u
    repeat' split
    all_goals first
      | exact OptExt.refl fd u
      | exact optExt_net_SetMcastOut P W fd family _ _ u
  have h4 : ∀ u : Trace, OptExt fd u (match C.miface_addr with
      | some str =>
        if str ≠ "" then (net_SetMcastOut P W fd family none (some str) u).2 else u
      | none => u) := by
    intro u
    repeat' split
    all_goals first
      | exact OptExt.refl fd u
      | exact optExt_net_SetMcastOut P W fd family _ _ u
  exact ((h1.trans (h2 _)).trans (h3 _)).trans (h4 _)

/-! ## The candidate loop of `__net_ConnectUDP` -/

theorem socket_mem_of_optExt {fd : Int} {t u : Trace} (h : OptExt fd t u) {e : Event}
    (he : e ∈ u) (hf : e.isFlow = true) : e ∈ t := by
  obtain ⟨o, rfl, ho⟩ := h
  rcases List.mem_append.1 he with h1 | h1
  · exact h1
  · have := ho e h1
    cases e <;> simp [Event.isFlow, Event.isOptionStep] at hf this

/-- The loop only appends to the trace, and what it appends are loop steps. -/
theorem connectLoop_extends (P : Platform) (C : Config) (W : World) (hlim : Int) :
    ∀ (cands : List AddrInfo) (i : Nat) (b : Bool) (t : Trace),
      ∃ tr, (connectLoop P C W hlim cands i b t).2 = t ++ tr
        ∧ ∀ e ∈ tr, e.isConnectStep := by
  intro cands
  induction cands with
  | nil => intro i b t; exact ⟨[], by simp [connectLoop], by simp⟩
  | cons ptr rest ih =>
    intro i b t
    have hopt := optExt_connectOptions P C W hlim (W.net_Socket i) ptr.ai_family
      (t ++ [Event.socket i ptr (W.net_Socket i)])
    obtain ⟨o, ho, hoo⟩ := hopt
    have hstep : ∀ e ∈ o, e.isConnectStep := fun e he => Or.inr (Or.inl ⟨_, hoo e he⟩)
    unfold connectLoop
    dsimp only
    split
    · obtain ⟨tr, h1, h2⟩ := ih (i + 1) b (t ++ [Event.socket i ptr (W.net_Socket i)])
      refine ⟨Event.socket i ptr (W.net_Socket i) :: tr, by simp [h1], ?_⟩
      intro e he
      rcases List.mem_cons.1 he with h | h
      · subst h; exact Or.inl rfl
      · exact h2 e h
    · split
      · refine ⟨Event.socket i ptr (W.net_Socket i) :: (o ++ [Event.connect (W.net_Socket i)
          ptr.ai_addr ptr.ai_addrlen ConnRes.ok]), by simp [ho], ?_⟩
        intro e he
        simp only [List.mem_cons, List.mem_append, List.mem_singleton, List.not_mem_nil,
          or_false] at he
        rcases he with h | h | h
        · subst h; exact Or.inl rfl
        · exact hstep e h
        · subst h; exact Or.inl rfl
      · obtain ⟨tr, h1, h2⟩ := ih (i + 1) true
          (connectOptions P C W hlim (W.net_Socket i) ptr.ai_family
            (t ++ [Event.socket i ptr (W.net_Socket i)]) ++
            [Event.connect (W.net_Socket i) ptr.ai_addr ptr.ai_addrlen ConnRes.ENETUNREACH])
        refine ⟨Event.socket i ptr (W.net_Socket i) :: (o ++ Event.connect (W.net_Socket i)
          ptr.ai_addr ptr.ai_addrlen ConnRes.ENETUNREACH :: tr), by rw [h1, ho]; simp, ?_⟩
        intro e he
        simp only [List.mem_cons, List.mem_append] at he
        rcases he with h | h | h | h
        · subst h; exact Or.inl rfl
        · exact hstep e h
        · subst h; exact Or.inl rfl
        · exact h2 e h
      · obtain ⟨tr, h1, h2⟩ := ih (i + 1) b
          (connectOptions P C W hlim (W.net_Socket i) ptr.ai_family
            (t ++ [Event.socket i ptr (W.net_Socket i)]) ++
            [Event.connect (W.net_Socket i) ptr.ai_addr ptr.ai_addrlen ConnRes.otherError,
             Event.msg Msg.connectWarning, Event.close (W.net_Socket i)])
        refine ⟨Event.socket i ptr (W.net_Socket i) :: (o ++ Event.connect (W.net_Socket i)
          ptr.ai_addr ptr.ai_addrlen ConnRes.otherError :: Event.msg Msg.connectWarning ::
          Event.close (W.net_Socket i) :: tr), by rw [h1, ho]; simp, ?_⟩
        intro e he
        simp only [List.mem_cons, List.mem_append] at he
        rcases he with h | h | h | h | h | h
        · subst h; exact Or.inl rfl
        · exact hstep e h
        · subst h; exact Or.inl rfl
        · subst h; exact Or.inr (Or.inr rfl)
        · subst h; exact Or.inl rfl
        · exact h2 e h

/-- The result of the loop depends on the outcomes of `net_Socket` and `connect` only. -/
theorem connectLoop_result (P : Platform) (C : Config) (W : World) (hlim : Int) :
    ∀ (cands : List AddrInfo) (i : Nat) (b : Bool) (t : Trace),
      (connectLoop P C W hlim cands i b t).1
        = connectResult W.net_Socket W.connect cands i b := by
  intro cands
  induction cands with
  | nil => intro i b t; rfl
  | cons ptr rest ih =>
    intro i b t
    unfold connectLoop connectResult
    dsimp only
    split
    · exact ih ..
    · split
      · simp_all
      · simp only [*]
      · simp only [*]

/-- The flow of the loop depends on the outcomes of `net_Socket` and `connect` only. -/
theorem connectLoop_flow (P : Platform) (C : Config) (W : World) (hlim : Int) :
    ∀ (cands : List AddrInfo) (i : Nat) (b : Bool) (t : Trace),
      flow (connectLoop P C W hlim cands i b t).2
        = flow t ++ connectFlow W.net_Socket W.connect cands i := by
  intro cands
  induction cands with
  | nil => intro i b t; simp [connectLoop, connectFlow]
  | cons ptr rest ih =>
    intro i b t
    unfold connectLoop connectFlow
    dsimp only
    split
    · rw [ih]; simp [Event.isFlow]
    · split
      · simp_all [Event.isFlow]
      · rw [ih]; simp_all [Event.isFlow]
      · rw [ih]; simp_all [Event.isFlow]

/-- When no candidate has socket creation and connect both succeed, the loop ends with
`i_handle == -1`, and `b_unreach` is set exactly when it was set before or some
`connect` failed with `ENETUNREACH`. -/
theorem connectResult_none (sock : Nat → Int) (conn : Nat → Nat → ConnRes) :
    ∀ (cands : List AddrInfo) (i : Nat) (b : Bool),
      (∀ k, k < cands.length → ¬(sock (i + k) ≠ -1 ∧ conn (i + k) 0 = ConnRes.ok)) →
      (connectResult sock conn cands i b).1 = -1
        ∧ ((connectResult sock conn cands i b).2 = true ↔
            (b = true ∨ ∃ k, k < cands.length ∧ sock (i + k) ≠ -1
              ∧ conn (i + k) 0 = ConnRes.ENETUNREACH)) := by
  intro cands
  induction cands with
  | nil => intro i b _; simp [connectResult]
  | cons ptr rest ih =>
    intro i b h
    have h0 := h 0 (by simp)
    have hrest : ∀ k, k < rest.length →
        ¬(sock (i + 1 + k) ≠ -1 ∧ conn (i + 1 + k) 0 = ConnRes.ok) := by
      intro k hk
      have := h (k + 1) (by simp; omega)
      rwa [show i + (k + 1) = i + 1 + k by omega] at this
    have hshift : ∀ (p : Nat → Prop),
        (∃ k, k < (ptr :: rest).length ∧ p (i + k)) ↔
          (p i ∨ ∃ k, k < rest.length ∧ p (i + 1 + k)) := by
      intro p
      constructor
      · rintro ⟨k, hk, hp⟩
        cases k with
        | zero => exact Or.inl hp
        | succ k =>
          refine Or.inr ⟨k, by simpa using hk, ?_⟩
          rwa [show i + 1 + k = i + (k + 1) by omega]
      · rintro (hp | ⟨k, hk, hp⟩)
        · exact ⟨0, by simp, hp⟩
        · refine ⟨k + 1, by simpa using hk, ?_⟩
          rwa [show i + (k + 1) = i + 1 + k by omega]
    rw [hshift (fun n => sock n ≠ -1 ∧ conn n 0 = ConnRes.ENETUNREACH)]
    unfold connectResult
    split
    · rename_i hs
      obtain ⟨r1, r2⟩ := ih (i + 1) b hrest
      refine ⟨r1, ?_⟩
      rw [r2]
      simp [hs]
    · rename_i hs
      split
      · rename_i hc
        exact absurd (And.intro hs hc) h0
      · rename_i hc
        obtain ⟨r1, r2⟩ := ih (i + 1) true hrest
        refine ⟨r1, ?_⟩
        rw [r2]
        simp [hs, hc]
      · rename_i hc
        obtain ⟨r1, r2⟩ := ih (i + 1) b hrest
        refine ⟨r1, ?_⟩
        rw [r2]
        simp [hs, hc]

/-- The first candidate on which socket creation and connect both succeed decides the
loop: its descriptor is the result, its successful connect is the last event, and no
socket is created for a later candidate. -/
theorem connectLoop_first (P : Platform) (C : Config) (W : World) (hlim : Int) :
    ∀ (cands : List AddrInfo) (i : Nat) (b : Bool) (t : Trace) (k : Nat)
      (hk : k < cands.length),
      W.connects (i + k) → (∀ j, j < k → ¬W.connects (i + j)) →
      (connectLoop P C W hlim cands i b t).1.1 = W.net_Socket (i + k)
        ∧ (∃ pre, (connectLoop P C W hlim cands i b t).2
            = pre ++ [Event.connect (W.net_Socket (i + k)) cands[k].ai_addr
                cands[k].ai_addrlen ConnRes.ok])
        ∧ (∀ c ai fd, Event.socket c ai fd ∈ (connectLoop P C W hlim cands i b t).2 →
            Event.socket c ai fd ∈ t ∨ c ≤ i + k) := by
  intro cands
  induction cands with
  | nil => intro i b t k hk; simp at hk
  | cons ptr rest ih =>
    intro i b t k hk hgood hleast
    have hmem : ∀ (u : Trace) (c : Nat) (ai : AddrInfo) (fd : Int),
        Event.socket c ai fd ∈ connectOptions P C W hlim (W.net_Socket i) ptr.ai_family
          (t ++ [Event.socket i ptr (W.net_Socket i)]) ++ u →
        Event.socket c ai fd ∈ t ∨ c = i ∨ Event.socket c ai fd ∈ u := by
      intro u c ai fd hm
      rcases List.mem_append.1 hm with h | h
      · have := socket_mem_of_optExt (optExt_connectOptions P C W hlim (W.net_Socket i)
          ptr.ai_family (t ++ [Event.socket i ptr (W.net_Socket i)])) h rfl
        rcases List.mem_append.1 this with h' | h'
        · exact Or.inl h'
        · simp at h'
          exact Or.inr (Or.inl h'.1)
      · exact Or.inr (Or.inr h)
    cases k with
    | zero =>
      obtain ⟨hs, hc⟩ := hgood
      simp only [Nat.add_zero] at hs hc ⊢
      unfold connectLoop
      dsimp only
      rw [if_neg hs, hc]
      refine ⟨rfl, ⟨_, rfl⟩, ?_⟩
      intro c ai fd hm
      rcases hmem _ c ai fd hm with h | h | h
      · exact Or.inl h
      · exact Or.inr (le_of_eq h)
      · simp at h
    | succ k =>
      have hk' : k < rest.length := by simpa using hk
      have hgood' : W.connects (i + 1 + k) := by
        rwa [show i + 1 + k = i + (k + 1) by omega]
      have hleast' : ∀ j, j < k → ¬W.connects (i + 1 + j) := by
        intro j hj
        have := hleast (j + 1) (by omega)
        rwa [show i + 1 + j = i + (j + 1) by omega]
      have h0 : ¬W.connects i := by simpa using hleast 0 (by omega)
      have hfin : ∀ (b' : Bool) (t' : Trace),
          (∀ c ai fd, Event.socket c ai fd ∈ t' → Event.socket c ai fd ∈ t ∨ c ≤ i) →
          (connectLoop P C W hlim rest (i + 1) b' t').1.1 = W.net_Socket (i + (k + 1))
          ∧ (∃ pre, (connectLoop P C W hlim rest (i + 1) b' t').2
              = pre ++ [Event.connect (W.net_Socket (i + (k + 1))) (ptr :: rest)[k + 1].ai_addr
                  (ptr :: rest)[k + 1].ai_addrlen ConnRes.ok])
          ∧ (∀ c ai fd, Event.socket c ai fd ∈ (connectLoop P C W hlim rest (i + 1) b' t').2 →
              Event.socket c ai fd ∈ t ∨ c ≤ i + (k + 1)) := by
        intro b' t' ht'
        obtain ⟨r1, r2, r3⟩ := ih (i + 1) b' t' k hk' hgood' hleast'
        refine ⟨by rw [r1]; congr 1; omega, ?_, ?_⟩
        · obtain ⟨pre, hpre⟩ := r2
          refine ⟨pre, ?_⟩
          rw [hpre]
          simp only [List.getElem_cons_succ]
          rw [show i + 1 + k = i + (k + 1) by omega]
        · intro c ai fd hm
          rcases r3 c ai fd hm with h | h
          · rcases ht' c ai fd h with h' | h'
            · exact Or.inl h'
            · exact Or.inr (by omega)
          · exact Or.inr (by omega)
      unfold connectLoop
      dsimp only
      split
      · apply hfin
        intro c ai fd hm
        rcases List.mem_append.1 hm with h | h
        · exact Or.inl h
        · simp at h
          exact Or.inr (le_of_eq h.1)
      · rename_i hs
        split
        · rename_i hc
          exact absurd ⟨hs, hc⟩ h0
        · apply hfin
          intro c ai fd hm
          rcases hmem _ c ai fd hm with h | h | h
          · exact Or.inl h
          · exact Or.inr (le_of_eq h)
          · simp at h
        · apply hfin
          intro c ai fd hm
          rcases hmem _ c ai fd hm with h | h | h
          · exact Or.inl h
          · exact Or.inr (le_of_eq h)
          · simp at h

/-! ## `__net_ConnectUDP` -/

theorem connectUDP_resolved (P : Platform) (C : Config) (W : World)
    (psz_host : Option String) (i_port i_hlim : Int) (t : Trace) (res : List AddrInfo)
    (hres : W.vlc_getaddrinfo psz_host (if i_port = 0 then 1234 else i_port)
      { ai_socktype := SOCK_DGRAM, ai_protocol := 0, ai_flags := 0 } = Except.ok res) :
    __net_ConnectUDP P C W psz_host i_port i_hlim t =
      (if (connectLoop P C W (if i_hlim < 1 then C.ttl else i_hlim) res 0 false
            (t ++ [Event.getaddrinfo psz_host (if i_port = 0 then 1234 else i_port)
              { ai_socktype := SOCK_DGRAM, ai_protocol := 0, ai_flags := 0 } true])).1.1 = -1
       then
        (if (connectLoop P C W (if i_hlim < 1 then C.ttl else i_hlim) res 0 false
            (t ++ [Event.getaddrinfo psz_host (if i_port = 0 then 1234 else i_port)
              { ai_socktype := SOCK_DGRAM, ai_protocol := 0, ai_flags := 0 } true])).1.2
         then (-1, (connectLoop P C W (if i_hlim < 1 then C.ttl else i_hlim) res 0 false
            (t ++ [Event.getaddrinfo psz_host (if i_port = 0 then 1234 else i_port)
              { ai_socktype := SOCK_DGRAM, ai_protocol := 0, ai_flags := 0 } true])).2
                ++ [Event.msg Msg.hostUnreachable])
         else (-1, (connectLoop P C W (if i_hlim < 1 then C.ttl else i_hlim) res 0 false
            (t ++ [Event.getaddrinfo psz_host (if i_port = 0 then 1234 else i_port)
              { ai_socktype := SOCK_DGRAM, ai_protocol := 0, ai_flags := 0 } true])).2))
       else
        ((connectLoop P C W (if i_hlim < 1 then C.ttl else i_hlim) res 0 false
            (t ++ [Event.getaddrinfo psz_host (if i_port = 0 then 1234 else i_port)
              { ai_socktype := SOCK_DGRAM, ai_protocol := 0, ai_flags := 0 } true])).1.1,
         (connectLoop P C W (if i_hlim < 1 then C.ttl else i_hlim) res 0 false
            (t ++ [Event.getaddrinfo psz_host (if i_port = 0 then 1234 else i_port)
              { ai_socktype := SOCK_DGRAM, ai_protocol := 0, ai_flags := 0 } true])).2)) := by
  unfold __net_ConnectUDP
  simp only [hres]

/-- C2: for every resolved candidate list and every outcome of socket creation and
connect, `__net_ConnectUDP` returns the descriptor of the first candidate (in resolver
order) on which socket creation and connect both succeed; the run ends with that
successful connect and creates no socket for a later candidate; and it returns `-1`
exactly when no candidate has both succeed. -/
theorem C2_connect_returns_first_success (P : Platform) (C : Config) (W : World)
    (psz_host : Option String) (i_port i_hlim : Int) (t : Trace) (res : List AddrInfo)
    (hres : W.vlc_getaddrinfo psz_host (if i_port = 0 then 1234 else i_port)
      { ai_socktype := SOCK_DGRAM, ai_protocol := 0, ai_flags := 0 } = Except.ok res) :
    (∀ (k : Nat) (hk : k < res.length), W.connects k → (∀ j, j < k → ¬W.connects j) →
        (__net_ConnectUDP P C W psz_host i_port i_hlim t).1 = W.net_Socket k
        ∧ (∃ pre, (__net_ConnectUDP P C W psz_host i_port i_hlim t).2
            = pre ++ [Event.connect (W.net_Socket k) res[k].ai_addr res[k].ai_addrlen
                ConnRes.ok])
        ∧ (∀ c ai fd,
            Event.socket c ai fd ∈ (__net_ConnectUDP P C W psz_host i_port i_hlim t).2 →
            Event.socket c ai fd ∈ t ∨ c ≤ k))
    ∧ ((__net_ConnectUDP P C W psz_host i_port i_hlim t).1 = -1 ↔
        ∀ k, k < res.length → ¬W.connects k) := by
  have hfirst : ∀ (k : Nat) (hk : k < res.length), W.connects k →
      (∀ j, j < k → ¬W.connects j) →
      (__net_ConnectUDP P C W psz_host i_port i_hlim t).1 = W.net_Socket k
      ∧ (∃ pre, (__net_ConnectUDP P C W psz_host i_port i_hlim t).2
          = pre ++ [Event.connect (W.net_Socket k) res[k].ai_addr res[k].ai_addrlen
              ConnRes.ok])
      ∧ (∀ c ai fd,
          Event.socket c ai fd ∈ (__net_ConnectUDP P C W psz_host i_port i_hlim t).2 →
          Event.socket c ai fd ∈ t ∨ c ≤ k) := by
    intro k hk hgood hleast
    obtain ⟨r1, r2, r3⟩ := connectLoop_first P C W (if i_hlim < 1 then C.ttl else i_hlim)
      res 0 false (t ++ [Event.getaddrinfo psz_host (if i_port = 0 then 1234 else i_port)
        { ai_socktype := SOCK_DGRAM, ai_protocol := 0, ai_flags := 0 } true]) k hk
      (by simpa using hgood) (by simpa using hleast)
    simp only [Nat.zero_add] at r1 r2 r3
    have hne : ¬(connectLoop P C W (if i_hlim < 1 then C.ttl else i_hlim) res 0 false
        (t ++ [Event.getaddrinfo psz_host (if i_port = 0 then 1234 else i_port)
          { ai_socktype := SOCK_DGRAM, ai_protocol := 0, ai_flags := 0 } true])).1.1 = -1 := by
      rw [r1]; exact hgood.1
    rw [connectUDP_resolved P C W psz_host i_port i_hlim t res hres, if_neg hne]
    refine ⟨r1, r2, ?_⟩
    intro c ai fd hm
    rcases r3 c ai fd hm with h | h
    · rcases List.mem_append.1 h with h' | h'
      · exact Or.inl h'
      · simp at h'
    · exact Or.inr h
  refine ⟨hfirst, ?_, ?_⟩
  · intro hfail k hk hgood
    have hex : ∃ n, n < res.length ∧ W.connects n := ⟨k, hk, hgood⟩
    classical
    have hspec := Nat.find_spec hex
    have hmin : ∀ j, j < Nat.find hex → ¬W.connects j := by
      intro j hj hc
      exact Nat.find_min hex hj ⟨lt_trans hj hspec.1, hc⟩
    have := (hfirst (Nat.find hex) hspec.1 hspec.2 hmin).1
    rw [hfail] at this
    exact hspec.2.1 this.symm
  · intro hnone
    have h1 := connectLoop_result P C W (if i_hlim < 1 then C.ttl else i_hlim) res 0 false
      (t ++ [Event.getaddrinfo psz_host (if i_port = 0 then 1234 else i_port)
        { ai_socktype := SOCK_DGRAM, ai_protocol := 0, ai_flags := 0 } true])
    have h2 := (connectResult_none W.net_Socket W.connect res 0 false
      (by simpa using hnone)).1
    rw [connectUDP_resolved P C W psz_host i_port i_hlim t res hres, h1, if_pos h2]
    split <;> rfl

/-- Instance of C2: two candidates, the first refused, the second connected: descriptor 4 is returned. -/
theorem C2_connect_returns_first_success_witness :
    (__net_ConnectUDP linuxPlatform plainConfig
      (mkWorld [hostCand, hostCand]
        (fun i _ => if i = 0 then ConnRes.otherError else ConnRes.ok) true)
      (some "198.51.100.7") 0 0 []).1 = 4 :=
  ((C2_connect_returns_first_success linuxPlatform plainConfig
      (mkWorld [hostCand, hostCand]
        (fun i _ => if i = 0 then ConnRes.otherError else ConnRes.ok) true)
      (some "198.51.100.7") 0 0 [] [hostCand, hostCand] rfl).1 1 (by decide) (by decide)
      (by decide)).1

/-- C4 as stated fails: the first candidate fails with `ENETUNREACH`, the second with
another error (a mix of reasons), and the run still reports "host unreachable". -/
theorem C4_mixed_failures_report_unreachable :
    (mkWorld [hostCand, hostCand]
        (fun i _ => if i = 0 then ConnRes.ENETUNREACH else ConnRes.otherError) true).connect 1 0
      = ConnRes.otherError
    ∧ (__net_ConnectUDP linuxPlatform plainConfig
        (mkWorld [hostCand, hostCand]
          (fun i _ => if i = 0 then ConnRes.ENETUNREACH else ConnRes.otherError) true)
        (some "198.51.100.7") 1234 0 []).1 = -1
    ∧ Event.msg Msg.hostUnreachable ∈
      (__net_ConnectUDP linuxPlatform plainConfig
        (mkWorld [hostCand, hostCand]
          (fun i _ => if i = 0 then ConnRes.ENETUNREACH else ConnRes.otherError) true)
        (some "198.51.100.7") 1234 0 []).2 := by
  decide

/-- C4, amended: when no candidate connects, `__net_ConnectUDP` returns `-1`, and it
reports "host unreachable" exactly when at least one `connect` failed with
`ENETUNREACH` (whatever the other candidates failed with). -/
theorem C4_unreachable_iff_some_enetunreach (P : Platform) (C : Config) (W : World)
    (psz_host : Option String) (i_port i_hlim : Int) (t : Trace) (res : List AddrInfo)
    (hres : W.vlc_getaddrinfo psz_host (if i_port = 0 then 1234 else i_port)
      { ai_socktype := SOCK_DGRAM, ai_protocol := 0, ai_flags := 0 } = Except.ok res)
    (hnone : ∀ k, k < res.length → ¬W.connects k) :
    ∃ tr, __net_ConnectUDP P C W psz_host i_port i_hlim t = (-1, t ++ tr)
      ∧ (Event.msg Msg.hostUnreachable ∈ tr ↔
          ∃ k, k < res.length ∧ W.net_Socket k ≠ -1 ∧ W.connect k 0 = ConnRes.ENETUNREACH) := by
  have h1 := connectLoop_result P C W (if i_hlim < 1 then C.ttl else i_hlim) res 0 false
    (t ++ [Event.getaddrinfo psz_host (if i_port = 0 then 1234 else i_port)
      { ai_socktype := SOCK_DGRAM, ai_protocol := 0, ai_flags := 0 } true])
  obtain ⟨h2, h3⟩ := connectResult_none W.net_Socket W.connect res 0 false
    (by simpa using hnone)
  obtain ⟨tr, h4, h5⟩ := connectLoop_extends P C W (if i_hlim < 1 then C.ttl else i_hlim)
    res 0 false (t ++ [Event.getaddrinfo psz_host (if i_port = 0 then 1234 else i_port)
      { ai_socktype := SOCK_DGRAM, ai_protocol := 0, ai_flags := 0 } true])
  have hnot : Event.msg Msg.hostUnreachable ∉ tr := by
    intro hm
    rcases h5 _ hm with h | ⟨fd, h⟩ | h
    · simp [Event.isFlow] at h
    · simp [Event.isOptionStep] at h
    · simp at h
  simp only [Nat.zero_add, Bool.false_eq_true, false_or] at h3
  rw [connectUDP_resolved P C W psz_host i_port i_hlim t res hres, h1, if_pos h2, h4, ← h3]
  split
  · rename_i hb
    refine ⟨Event.getaddrinfo psz_host (if i_port = 0 then 1234 else i_port)
      { ai_socktype := SOCK_DGRAM, ai_protocol := 0, ai_flags := 0 } true :: tr
      ++ [Event.msg Msg.hostUnreachable], by simp, ?_⟩
    simp [hb]
  · rename_i hb
    refine ⟨Event.getaddrinfo psz_host (if i_port = 0 then 1234 else i_port)
      { ai_socktype := SOCK_DGRAM, ai_protocol := 0, ai_flags := 0 } true :: tr, by simp, ?_⟩
    simp [hb, hnot]

/-- Instance of C4 (amended): one `ENETUNREACH` failure followed by another failure. -/
theorem C4_unreachable_iff_some_enetunreach_witness :
    ∃ tr, __net_ConnectUDP linuxPlatform plainConfig
        (mkWorld [hostCand, hostCand]
          (fun i _ => if i = 0 then ConnRes.ENETUNREACH else ConnRes.otherError) true)
        (some "198.51.100.7") 1234 0 [] = (-1, [] ++ tr)
      ∧ (Event.msg Msg.hostUnreachable ∈ tr ↔
          ∃ k, k < [hostCand, hostCand].length
            ∧ (mkWorld [hostCand, hostCand]
                (fun i _ => if i = 0 then ConnRes.ENETUNREACH else ConnRes.otherError)
                true).net_Socket k ≠ -1
            ∧ (mkWorld [hostCand, hostCand]
                (fun i _ => if i = 0 then ConnRes.ENETUNREACH else ConnRes.otherError)
                true).connect k 0 = ConnRes.ENETUNREACH) :=
  C4_unreachable_iff_some_enetunreach linuxPlatform plainConfig
    (mkWorld [hostCand, hostCand]
      (fun i _ => if i = 0 then ConnRes.ENETUNREACH else ConnRes.otherError) true)
    (some "198.51.100.7") 1234 0 [] [hostCand, hostCand] rfl (by decide)

/-- C8, the defect: one candidate whose socket is created (descriptor 3) and whose
`connect` fails with `ENETUNREACH`. The call returns `-1` and descriptor 3 is still
open: the `ENETUNREACH` branch of lines 583-585 does not close it, whereas the sibling
branch of lines 586-592 does. -/
theorem C8_unreachable_leaves_descriptor_open :
    (__net_ConnectUDP linuxPlatform plainConfig
        (mkWorld [hostCand] (fun _ _ => ConnRes.ENETUNREACH) true)
        (some "198.51.100.7") 1234 0 []).1 = -1
    ∧ openHandles (__net_ConnectUDP linuxPlatform plainConfig
        (mkWorld [hostCand] (fun _ _ => ConnRes.ENETUNREACH) true)
        (some "198.51.100.7") 1234 0 []).2 [] = [3]
    ∧ openHandles (__net_ConnectUDP linuxPlatform plainConfig
        (mkWorld [hostCand] (fun _ _ => ConnRes.otherError) true)
        (some "198.51.100.7") 1234 0 []).2 [] = [] := by
  decide

/-- C10: two runs of `__net_ConnectUDP` with the same arguments, the same resolver and
the same outcomes of socket creation and connect return the same value and issue the
same resolution, socket, connect and close calls in the same order, whatever the
option-setting calls (`setsockopt`, `getsockname`, interface and address look-ups)
answer in either run. -/
theorem C10_options_do_not_steer_connect (P : Platform) (C : Config) (W1 W2 : World)
    (psz_host : Option String) (i_port i_hlim : Int) (t : Trace)
    (hresolve : W1.vlc_getaddrinfo = W2.vlc_getaddrinfo)
    (hsocket : W1.net_Socket = W2.net_Socket)
    (hconnect : W1.connect = W2.connect) :
    (__net_ConnectUDP P C W1 psz_host i_port i_hlim t).1
        = (__net_ConnectUDP P C W2 psz_host i_port i_hlim t).1
    ∧ flow (__net_ConnectUDP P C W1 psz_host i_port i_hlim t).2
        = flow (__net_ConnectUDP P C W2 psz_host i_port i_hlim t).2 := by
  unfold __net_ConnectUDP
  dsimp only
  rw [hresolve]
  split
  · simp [Event.isFlow]
  · rename_i res hres
    simp only [connectLoop_result, hsocket, hconnect]
    constructor
    · split <;> (try split) <;> rfl
    · have hf : ∀ W : World, W.net_Socket = W2.net_Socket → W.connect = W2.connect →
          flow (if (connectResult W2.net_Socket W2.connect res 0 false).1 = -1 then
              if (connectResult W2.net_Socket W2.connect res 0 false).2 = true then
                ((-1 : Int), (connectLoop P C W (if i_hlim < 1 then C.ttl else i_hlim) res 0
                  false (t ++ [Event.getaddrinfo psz_host (if i_port = 0 then 1234 else i_port)
                    { ai_socktype := SOCK_DGRAM, ai_protocol := 0, ai_flags := 0 } true])).2
                    ++ [Event.msg Msg.hostUnreachable])
              else
                (-1, (connectLoop P C W (if i_hlim < 1 then C.ttl else i_hlim) res 0
                  false (t ++ [Event.getaddrinfo psz_host (if i_port = 0 then 1234 else i_port)
                    { ai_socktype := SOCK_DGRAM, ai_protocol := 0, ai_flags := 0 } true])).2)
            else
              ((connectResult W2.net_Socket W2.connect res 0 false).1,
                (connectLoop P C W (if i_hlim < 1 then C.ttl else i_hlim) res 0
                  false (t ++ [Event.getaddrinfo psz_host (if i_port = 0 then 1234 else i_port)
                    { ai_socktype := SOCK_DGRAM, ai_protocol := 0, ai_flags := 0 } true])).2)).2
            = flow t ++ Event.getaddrinfo psz_host (if i_port = 0 then 1234 else i_port)
                { ai_socktype := SOCK_DGRAM, ai_protocol := 0, ai_flags := 0 } true
                :: connectFlow W2.net_Socket W2.connect res 0 := by
        intro W hs hc
        split <;> (try split) <;> simp [connectLoop_flow, hs, hc, Event.isFlow]
      rw [hf W1 hsocket hconnect, hf W2 rfl rfl]

/-- Instance of C10: a world where every option call succeeds against one where every option call fails. -/
theorem C10_options_do_not_steer_connect_witness :
    (__net_ConnectUDP linuxPlatform plainConfig
        (mkWorld [hostCand] (fun _ _ => ConnRes.ok) true) (some "198.51.100.7") 0 0 []).1
      = (__net_ConnectUDP linuxPlatform plainConfig
        (mkWorld [hostCand] (fun _ _ => ConnRes.ok) false) (some "198.51.100.7") 0 0 []).1
    ∧ flow (__net_ConnectUDP linuxPlatform plainConfig
        (mkWorld [hostCand] (fun _ _ => ConnRes.ok) true) (some "198.51.100.7") 0 0 []).2
      = flow (__net_ConnectUDP linuxPlatform plainConfig
        (mkWorld [hostCand] (fun _ _ => ConnRes.ok) false) (some "198.51.100.7") 0 0 []).2 :=
  C10_options_do_not_steer_connect linuxPlatform plainConfig
    (mkWorld [hostCand] (fun _ _ => ConnRes.ok) true)
    (mkWorld [hostCand] (fun _ _ => ConnRes.ok) false) (some "198.51.100.7") 0 0 []
    rfl rfl rfl

/-! ## `net_SourceSubscribe` -/

@[simp] theorem joinCalls_nil : joinCalls [] = [] := rfl

@[simp] theorem joinCalls_setsockopt (fd : Int) (o : SockOpt) (ok : Bool) (t : Trace) :
    joinCalls (Event.setsockopt fd o ok :: t)
      = if o.isJoin then (fd, o, ok) :: joinCalls t else joinCalls t := rfl

@[simp] theorem joinCalls_msg (m : Msg) (t : Trace) :
    joinCalls (Event.msg m :: t) = joinCalls t := rfl

@[simp] theorem joinCalls_append (a b : Trace) :
    joinCalls (a ++ b) = joinCalls a ++ joinCalls b := by
  induction a with
  | nil => rfl
  | cons e a ih =>
    cases e <;> simp [joinCalls, ih]
    split <;> simp

@[simp] theorem asmRetries_nil : asmRetries [] = 0 := rfl

@[simp] theorem asmRetries_append (a b : Trace) :
    asmRetries (a ++ b) = asmRetries a + asmRetries b := by
  simp [asmRetries]

@[simp] theorem asmRetries_cons (e : Event) (t : Trace) :
    asmRetries (e :: t) = (if e = Event.msg Msg.tryingASM then 1 else 0) + asmRetries t := by
  simp only [asmRetries, List.count_cons]
  split <;> simp_all [Nat.add_comm]

theorem net_Subscribe_eq (P : Platform) (C : Config) (W : World) (fd : Int)
    (addr : SockAddr) (addrlen : Nat) (t : Trace) :
    net_Subscribe P C W fd addr addrlen t
      = net_SourceSubscribe P C W fd none 0 addr addrlen t := by
  rw [net_Subscribe]

theorem normalizeSource_none {grp : SockAddr} {iid0 : Nat} {level : Level}
    {src1 : Option SockAddr} {iid : Nat}
    (h : normalizeSource none grp iid0 = Normalized.go level src1 iid) :
    src1 = none ∧ grp.sa_family = Family.AF_INET ∧ level = Level.SOL_IP ∧ iid = iid0 := by
  unfold normalizeSource at h
  cases hg : grp.sa_family <;> simp [hg] at h
  exact ⟨h.2.1.symm, rfl, h.1.symm, h.2.2.symm⟩

/-- The unified join: either nothing is issued and the result is not success, or the
one unified request matching `src` is issued and decides the result. -/
theorem unifiedJoin_cases (P : Platform) (W : World) (fd : Int) (level : Level) (iid : Nat)
    (src : Option SockAddr) (srclen : Nat) (grp : SockAddr) (grplen : Nat) (t : Trace) :
    (∃ r, unifiedJoin P W fd level iid src srclen grp grplen t = (r, t) ∧ r ≠ some 0
        ∧ (r = none → P.MCAST_JOIN_SOURCE_GROUP = false)
        ∧ (P.MCAST_JOIN_SOURCE_GROUP = false → r = none)
        ∧ (grplen ≤ P.sizeof_sockaddr_storage →
            (src.isSome = true → srclen ≤ P.sizeof_sockaddr_storage) → r = none)
        ∧ (r = none ∨ r = some (-1)))
    ∨ (∃ o, P.MCAST_JOIN_SOURCE_GROUP = true
        ∧ o.primitive = some (if src.isSome then JoinPrimitive.unifiedSourceGroup
            else JoinPrimitive.unifiedGroup)
        ∧ unifiedJoin P W fd level iid src srclen grp grplen t
          = (if W.setsockopt t fd o then some 0 else none,
             t ++ [Event.setsockopt fd o (W.setsockopt t fd o)])) := by
  unfold unifiedJoin
  by_cases hP : P.MCAST_JOIN_SOURCE_GROUP = true
  · rw [if_pos hP]
    cases src with
    | none =>
      dsimp only
      split
      · exact Or.inl ⟨some (-1), rfl, by simp, by simp, by simp [hP], by intro h; omega,
          by simp⟩
      · refine Or.inr ⟨SockOpt.MCAST_JOIN_GROUP level iid grp grplen, hP, rfl, ?_⟩
        simp only [sys_setsockopt]
        split <;> rfl
    | some s =>
      dsimp only
      split
      · exact Or.inl ⟨some (-1), rfl, by simp, by simp, by simp [hP],
          by intro h1 h2; have := h2 rfl; omega, by simp⟩
      · refine Or.inr ⟨SockOpt.MCAST_JOIN_SOURCE_GROUP level iid grp grplen s srclen, hP,
          rfl, ?_⟩
        simp only [sys_setsockopt]
        split <;> rfl
  · rw [if_neg hP]
    exact Or.inl ⟨none, rfl, by simp, by simpa using hP, by simp, by simp, by simp⟩

theorem net_IPv4Join_cases (P : Platform) (C : Config) (W : World) (fd : Int)
    (src : Option SockAddr) (grp : SockAddr) (t : Trace) :
    (∃ tl, net_IPv4Join P C W fd src grp t = (-1, t ++ tl) ∧ asmRetries tl = 0
        ∧ joinCalls tl = [])
    ∨ (∃ o tl, o.primitive = some (if src.isSome then JoinPrimitive.ipv4AddSourceMembership
            else JoinPrimitive.ipv4AddMembership)
        ∧ o.isJoin = true
        ∧ net_IPv4Join P C W fd src grp t
            = (if W.setsockopt t fd o then 0 else -1, t ++ tl)
        ∧ asmRetries tl = 0
        ∧ joinCalls tl = [(fd, o, W.setsockopt t fd o)]) := by
  unfold net_IPv4Join
  split
  · dsimp only
    split
    · exact Or.inl ⟨_, rfl, by simp, by simp⟩
    · rename_i id _
      split
      · rename_i s
        split
        · refine Or.inr ⟨SockOpt.IP_ADD_SOURCE_MEMBERSHIP grp.sin_addr s.sin_addr id,
            if W.setsockopt t fd (SockOpt.IP_ADD_SOURCE_MEMBERSHIP grp.sin_addr s.sin_addr id)
              then [Event.setsockopt fd
                (SockOpt.IP_ADD_SOURCE_MEMBERSHIP grp.sin_addr s.sin_addr id) true]
              else [Event.setsockopt fd
                (SockOpt.IP_ADD_SOURCE_MEMBERSHIP grp.sin_addr s.sin_addr id) false,
                Event.msg Msg.cannotJoinIPv4], rfl, rfl, ?_, ?_, ?_⟩
          · simp only [sys_setsockopt]
            split <;> simp_all
          · split <;> simp
          · split <;> simp_all [SockOpt.isJoin]
        · exact Or.inl ⟨_, rfl, by simp, by simp⟩
      · refine Or.inr ⟨SockOpt.IP_ADD_MEMBERSHIP grp.sin_addr id,
            if W.setsockopt t fd (SockOpt.IP_ADD_MEMBERSHIP grp.sin_addr id)
              then [Event.setsockopt fd (SockOpt.IP_ADD_MEMBERSHIP grp.sin_addr id) true]
              else [Event.setsockopt fd (SockOpt.IP_ADD_MEMBERSHIP grp.sin_addr id) false,
                Event.msg Msg.cannotJoinIPv4], rfl, rfl, ?_, ?_, ?_⟩
        · simp only [sys_setsockopt]
          split <;> simp_all
        · split <;> simp
        · split <;> simp_all [SockOpt.isJoin]
  · exact Or.inl ⟨_, rfl, by simp, by simp⟩

theorem net_IPv6Join_cases (P : Platform) (W : World) (fd : Int) (grp : SockAddr)
    (t : Trace) :
    (∃ tl, net_IPv6Join P W fd grp t = (-1, t ++ tl) ∧ asmRetries tl = 0
        ∧ joinCalls tl = [])
    ∨ (∃ o tl, o.primitive = some JoinPrimitive.ipv6JoinGroup
        ∧ o.isJoin = true
        ∧ net_IPv6Join P W fd grp t = (if W.setsockopt t fd o then 0 else -1, t ++ tl)
        ∧ asmRetries tl = 0
        ∧ joinCalls tl = [(fd, o, W.setsockopt t fd o)]) := by
  unfold net_IPv6Join
  split
  · refine Or.inr ⟨SockOpt.IPV6_JOIN_GROUP grp.sin6_scope_id grp.sin6_addr,
      if W.setsockopt t fd (SockOpt.IPV6_JOIN_GROUP grp.sin6_scope_id grp.sin6_addr)
        then [Event.setsockopt fd
          (SockOpt.IPV6_JOIN_GROUP grp.sin6_scope_id grp.sin6_addr) true]
        else [Event.setsockopt fd
          (SockOpt.IPV6_JOIN_GROUP grp.sin6_scope_id grp.sin6_addr) false,
          Event.msg Msg.cannotJoinIPv6], rfl, rfl, ?_, ?_, ?_⟩
    · simp only [sys_setsockopt]
      split <;> simp_all
    · split <;> simp
    · split <;> simp_all [SockOpt.isJoin]
  · exact Or.inl ⟨_, rfl, by simp, by simp⟩

/-- The per-family fallback: either no primitive is invoked and the result is not
success, or the one legacy primitive for this group and source is invoked and decides
between success and leaving the switch. -/
theorem legacyJoin_cases (P : Platform) (C : Config) (W : World) (fd : Int)
    (src : Option SockAddr) (srclen : Nat) (grp : SockAddr) (grplen : Nat) (t : Trace) :
    (∃ r tl, legacyJoin P C W fd src srclen grp grplen t = (r, t ++ tl) ∧ r ≠ some 0
        ∧ asmRetries tl = 0 ∧ joinCalls tl = []
        ∧ (familyMismatch src grp = true → r = some (-1) ∧ tl = [])
        ∧ (r = some (-1) → tl = [])
        ∧ (r = none ∨ r = some (-1))
        ∧ (familyMismatch src grp = false → grp.sa_family = Family.AF_INET →
            P.sizeof_sockaddr_in ≤ grplen →
            (src.isSome = true → P.sizeof_sockaddr_in ≤ srclen) → r = none))
    ∨ (∃ o tl, familyMismatch src grp = false
        ∧ o.primitive = some (legacyPrimitive src grp)
        ∧ o.isJoin = true
        ∧ legacyJoin P C W fd src srclen grp grplen t
            = (if W.setsockopt t fd o then some 0 else none, t ++ tl)
        ∧ asmRetries tl = 0
        ∧ joinCalls tl = [(fd, o, W.setsockopt t fd o)]) := by
  unfold legacyJoin
  by_cases hm : familyMismatch src grp = true
  · rw [if_pos hm]
    exact Or.inl ⟨some (-1), [], by simp, by simp, by simp, by simp, by simp, by simp,
      by simp, by simp [hm]⟩
  · rw [if_neg hm]
    have hm' : familyMismatch src grp = false := by simpa using hm
    split
    · rename_i hg
      split
      · rename_i hlen
        refine Or.inl ⟨some (-1), [], by simp, by simp, by simp, by simp, by simp [hm'],
          by simp, by simp, ?_⟩
        intro _ _ h1 h2
        exfalso
        rcases hlen with h | ⟨h3, h4⟩
        · omega
        · have := h2 (by cases src <;> simp_all)
          omega
      · rcases net_IPv4Join_cases P C W fd src grp t with
          ⟨tl, h1, h2, h3⟩ | ⟨o, tl, h1, hj, h2, h3, h4⟩
        · refine Or.inl ⟨none, tl, ?_, by simp, h2, h3, by simp [hm'], by simp, by simp,
            by simp⟩
          simp [h1]
        · refine Or.inr ⟨o, tl, hm', ?_, hj, ?_, h3, h4⟩
          · simp [legacyPrimitive, hg, h1]
          · dsimp only
            rw [h2]
            split <;> simp
    · rename_i hg
      split
      · exact Or.inl ⟨some (-1), [], by simp, by simp, by simp, by simp, by simp [hm'],
          by simp, by simp, by simp [hg]⟩
      · rcases net_IPv6Join_cases P W fd grp t with
          ⟨tl, h1, h2, h3⟩ | ⟨o, tl, h1, hj, h2, h3, h4⟩
        · refine Or.inl ⟨none, tl, ?_, by simp, h2, h3, by simp [hm'], by simp, by simp,
            by simp⟩
          simp [h1]
        · refine Or.inr ⟨o, tl, hm', ?_, hj, ?_, h3, h4⟩
          · simp [legacyPrimitive, hg, h1]
          · dsimp only
            rw [h2]
            split <;> simp
    · exact Or.inl ⟨none, [], by simp, by simp, by simp, by simp, by simp [hm'], by simp,
        by simp, by simp⟩

theorem isJoin_of_primitive {o : SockOpt} {k : JoinPrimitive} (h : o.primitive = some k) :
    o.isJoin = true := by
  cases o <;> simp [SockOpt.primitive] at h <;> rfl

/-- What one pass over lines 377-446 does: it appends the record `tu` of the unified
join and the record `tl` of the per-family fallback. -/
theorem joinAttempts_spec (P : Platform) (C : Config) (W : World) (fd : Int) (level : Level)
    (iid : Nat) (src : Option SockAddr) (srclen : Nat) (grp : SockAddr) (grplen : Nat)
    (t : Trace) :
    ∃ r tu tl, joinAttempts P C W fd level iid src srclen grp grplen t = (r, t ++ (tu ++ tl))
      ∧ asmRetries (tu ++ tl) = 0
      ∧ (tu = [] ∨ ∃ o, P.MCAST_JOIN_SOURCE_GROUP = true
          ∧ o.primitive = some (unifiedPrimitive src)
          ∧ tu = [Event.setsockopt fd o (W.setsockopt t fd o)])
      ∧ (joinCalls tl = [] ∨ ∃ o, familyMismatch src grp = false
          ∧ o.primitive = some (legacyPrimitive src grp)
          ∧ joinCalls tl = [(fd, o, W.setsockopt (t ++ tu) fd o)])
      ∧ (P.MCAST_JOIN_SOURCE_GROUP = false → tu = [])
      ∧ (r = some 0 ∨ r = some (-1) ∨ r = none)
      ∧ (r = some 0 ↔ ∃ c ∈ joinCalls (tu ++ tl), c.2.2 = true)
      ∧ (familyMismatch src grp = true → r ≠ none)
      ∧ (grplen ≤ P.sizeof_sockaddr_storage →
          (src.isSome = true → srclen ≤ P.sizeof_sockaddr_storage) →
          familyMismatch src grp = false → grp.sa_family = Family.AF_INET →
          P.sizeof_sockaddr_in ≤ grplen →
          (src.isSome = true → P.sizeof_sockaddr_in ≤ srclen) → r ≠ some (-1)) := by
  unfold joinAttempts
  have hleg : ∀ (tu : Trace) (r0 : Option Int),
      unifiedJoin P W fd level iid src srclen grp grplen t = (r0, t ++ tu) →
      (r0 = none ∨ (r0 = some (-1) ∧ tu = [])) →
      (grplen ≤ P.sizeof_sockaddr_storage →
          (src.isSome = true → srclen ≤ P.sizeof_sockaddr_storage) → r0 = none) →
      asmRetries tu = 0 → (∀ c ∈ joinCalls tu, c.2.2 = false) →
      ∃ r tl, (match unifiedJoin P W fd level iid src srclen grp grplen t with
          | (some r, t1) => (some r, t1)
          | (none, t1) => legacyJoin P C W fd src srclen grp grplen t1) = (r, t ++ (tu ++ tl))
        ∧ asmRetries (tu ++ tl) = 0
        ∧ (joinCalls tl = [] ∨ ∃ o, familyMismatch src grp = false
            ∧ o.primitive = some (legacyPrimitive src grp)
            ∧ joinCalls tl = [(fd, o, W.setsockopt (t ++ tu) fd o)])
        ∧ (r = some 0 ∨ r = some (-1) ∨ r = none)
        ∧ (r = some 0 ↔ ∃ c ∈ joinCalls (tu ++ tl), c.2.2 = true)
        ∧ (familyMismatch src grp = true → r ≠ none)
        ∧ (grplen ≤ P.sizeof_sockaddr_storage →
            (src.isSome = true → srclen ≤ P.sizeof_sockaddr_storage) →
            familyMismatch src grp = false → grp.sa_family = Family.AF_INET →
            P.sizeof_sockaddr_in ≤ grplen →
            (src.isSome = true → P.sizeof_sockaddr_in ≤ srclen) → r ≠ some (-1)) := by
    intro tu r0 hU hr0 hlen0 hasm hcalls
    rw [hU]
    rcases hr0 with rfl | ⟨rfl, rfl⟩
    · dsimp only
      rcases legacyJoin_cases P C W fd src srclen grp grplen (t ++ tu) with
        ⟨r, tl, h1, h2, h3, h4, h5, h6, h7, h8⟩ | ⟨o, tl, hm, hp, hj, h1, h3, h4⟩
      · refine ⟨r, tl, by simp [h1], by simp [hasm, h3], Or.inl h4, ?_, ?_, ?_, ?_⟩
        · rcases h7 with h | h
          · exact Or.inr (Or.inr h)
          · exact Or.inr (Or.inl h)
        · constructor
          · intro h; exact absurd h h2
          · rintro ⟨c, hc, hok⟩
            simp only [joinCalls_append, h4, List.append_nil] at hc
            have := hcalls c hc
            simp [this] at hok
        · intro hmm; simp [(h5 hmm).1]
        · intro a1 a2 a3 a4 a5 a6
          simp [h8 a3 a4 a5 a6]
      · refine ⟨if W.setsockopt (t ++ tu) fd o = true then some 0 else none, tl,
          by simp [h1], by simp [hasm, h3], Or.inr ⟨o, hm, hp, h4⟩, ?_, ?_, ?_, ?_⟩
        · split <;> simp
        · constructor
          · intro h
            refine ⟨(fd, o, W.setsockopt (t ++ tu) fd o), by simp [h4], ?_⟩
            by_contra hne
            have hne' : W.setsockopt (t ++ tu) fd o = false := by simpa using hne
            simp [hne'] at h
          · rintro ⟨c, hc, hok⟩
            simp only [joinCalls_append, h4, List.mem_append, List.mem_singleton] at hc
            rcases hc with hc | hc
            · have := hcalls c hc
              simp [this] at hok
            · subst hc
              simp only at hok
              simp [hok]
        · intro hmm; simp [hm] at hmm
        · intro _ _ _ _ _ _
          split <;> simp
    · dsimp only
      refine ⟨some (-1), [], by simp, by simp, Or.inl rfl, by simp, by simp, by simp, ?_⟩
      intro a1 a2 _ _ _ _
      have := hlen0 a1 a2
      simp at this
  rcases unifiedJoin_cases P W fd level iid src srclen grp grplen t with
    ⟨r0, h1, h2, h3, h4, h5, h6⟩ | ⟨o, hP, hp, h1⟩
  · obtain ⟨r, tl, e1, e2, e3, e4, e5, e6, e7⟩ := hleg [] r0 (by simpa using h1)
      (by rcases h6 with h | h
          · exact Or.inl h
          · exact Or.inr ⟨h, rfl⟩) h5 (by simp) (by simp)
    exact ⟨r, [], tl, e1, e2, Or.inl rfl, e3, by simp, e4, e5, e6, e7⟩
  · have hj := isJoin_of_primitive hp
    by_cases hok : W.setsockopt t fd o = true
    · rw [h1]
      simp only [hok, if_true]
      refine ⟨some 0, [Event.setsockopt fd o true], [], by simp, by simp,
        Or.inr ⟨o, hP, hp, by simp [hok]⟩, Or.inl rfl, by simp [hP], by simp, ?_, by simp,
        by simp⟩
      simp [hj]
    · have hok' : W.setsockopt t fd o = false := by simpa using hok
      obtain ⟨r, tl, e1, e2, e3, e4, e5, e6, e7⟩ :=
        hleg [Event.setsockopt fd o false] none (by rw [h1]; simp [hok']) (Or.inl rfl)
          (by simp) (by simp) (by simp [hj])
      exact ⟨r, [Event.setsockopt fd o false], tl, e1, e2,
        Or.inr ⟨o, hP, hp, by simp [hok']⟩, e3, by simp [hP], e4, e5, e6, e7⟩

/-- One unfolding of `net_SourceSubscribe`, with the call of `net_Subscribe` replaced by
its body. -/
theorem net_SourceSubscribe_unfold (P : Platform) (C : Config) (W : World) (fd : Int)
    (src : Option SockAddr) (srclen : Nat) (grp : SockAddr) (grplen : Nat) (t : Trace) :
    net_SourceSubscribe P C W fd src srclen grp grplen t =
      match subscribeInterface C W with
      | none => (Ret.val (-1), t ++ [Event.msg Msg.invalidMcastInterface])
      | some iid0 =>
        match normalizeSource src grp iid0 with
        | Normalized.nullDeref => (Ret.fault, t)
        | Normalized.unsupported => (Ret.val (-1), t)
        | Normalized.go level src1 iid =>
          match joinAttempts P C W fd level iid src1 srclen grp grplen t with
          | (some r, t1) => (Ret.val r, t1)
          | (none, t1) =>
            if src1.isSome then
              net_SourceSubscribe P C W fd none 0 grp grplen
                (t1 ++ [Event.msg Msg.mcastJoinError, Event.msg Msg.tryingASM])
            else
              (Ret.val (-1),
                t1 ++ [Event.msg Msg.mcastJoinError, Event.msg Msg.mcastNotSupported]) := by
  rw [net_SourceSubscribe]
  cases h1 : subscribeInterface C W with
  | none => rfl
  | some iid0 =>
    dsimp only
    split <;> rename_i h2
    · simp only [h2]
    · simp only [h2]
    · simp only [h2]
      split
      · rfl
      · split
        · rw [net_Subscribe]
        · rfl

@[simp] theorem attempts_nil (k : JoinPrimitive) : attempts k [] = 0 := rfl

theorem attempts_append (k : JoinPrimitive) (a b : Trace) :
    attempts k (a ++ b) = attempts k a + attempts k b := by
  simp [attempts]

theorem attempts_of_joinCalls_nil (k : JoinPrimitive) {a : Trace} (h : joinCalls a = []) :
    attempts k a = 0 := by
  simp [attempts, h]

theorem unified_ne_legacy (src : Option SockAddr) (grp : SockAddr) :
    unifiedPrimitive src ≠ legacyPrimitive src grp := by
  unfold unifiedPrimitive legacyPrimitive
  cases src <;> cases grp.sa_family <;> simp

/-- The join calls of one pass: at most one unified and at most one legacy request, all
on `fd`, so that no primitive is invoked twice. -/
theorem pass_calls {fd : Int} {W : World} {P : Platform} {src : Option SockAddr}
    {grp : SockAddr} {t tu tl : Trace}
    (hU : tu = [] ∨ ∃ o, P.MCAST_JOIN_SOURCE_GROUP = true
          ∧ o.primitive = some (unifiedPrimitive src)
          ∧ tu = [Event.setsockopt fd o (W.setsockopt t fd o)])
    (hL : joinCalls tl = [] ∨ ∃ o, familyMismatch src grp = false
          ∧ o.primitive = some (legacyPrimitive src grp)
          ∧ joinCalls tl = [(fd, o, W.setsockopt (t ++ tu) fd o)]) :
    (∀ k, attempts k (tu ++ tl) ≤ 1)
    ∧ (∀ c ∈ joinCalls (tu ++ tl), c.1 = fd
        ∧ ((c.2.1.primitive = some (unifiedPrimitive src) ∧ P.MCAST_JOIN_SOURCE_GROUP = true)
          ∨ (c.2.1.primitive = some (legacyPrimitive src grp)
              ∧ familyMismatch src grp = false))) := by
  have hne := unified_ne_legacy src grp
  rcases hU with rfl | ⟨o, hP, hp, rfl⟩ <;> rcases hL with hl | ⟨o2, hm, hp2, hl⟩
  · refine ⟨fun k => by simp [attempts, hl], ?_⟩
    intro c hc; simp [hl] at hc
  · refine ⟨fun k => ?_, ?_⟩
    · simp only [attempts, List.nil_append, hl, List.countP_cons, List.countP_nil]
      split <;> simp
    · intro c hc
      simp only [List.nil_append, hl, List.mem_singleton] at hc
      subst hc
      exact ⟨rfl, Or.inr ⟨hp2, hm⟩⟩
  · have hj := isJoin_of_primitive hp
    refine ⟨fun k => ?_, ?_⟩
    · simp only [attempts, joinCalls_append, hl, joinCalls_setsockopt, hj, if_true,
        joinCalls_nil, List.append_nil, List.countP_cons, List.countP_nil]
      split <;> simp
    · intro c hc
      simp only [joinCalls_append, hl, joinCalls_setsockopt, hj, if_true, joinCalls_nil,
        List.append_nil, List.mem_singleton] at hc
      subst hc
      exact ⟨rfl, Or.inl ⟨hp, hP⟩⟩
  · have hj := isJoin_of_primitive hp
    refine ⟨fun k => ?_, ?_⟩
    · simp only [attempts, joinCalls_append, hl, joinCalls_setsockopt, hj, if_true,
        joinCalls_nil, List.singleton_append, List.countP_cons, List.countP_nil, hp, hp2]
      by_cases h1 : unifiedPrimitive src = k
      · have h2 : ¬legacyPrimitive src grp = k := fun h => hne (h1.trans h.symm)
        simp [h1, h2]
      · simp [h1]
        split <;> simp
    · intro c hc
      simp only [joinCalls_append, hl, joinCalls_setsockopt, hj, if_true, joinCalls_nil,
        List.singleton_append, List.mem_cons, List.mem_singleton, List.not_mem_nil,
        or_false] at hc
      rcases hc with rfl | rfl
      · exact ⟨rfl, Or.inl ⟨hp, hP⟩⟩
      · exact ⟨rfl, Or.inr ⟨hp2, hm⟩⟩

theorem normalizeSource_go {src : Option SockAddr} {grp : SockAddr} {iid0 : Nat}
    {level : Level} {src1 : Option SockAddr} {iid : Nat}
    (h : normalizeSource src grp iid0 = Normalized.go level src1 iid) :
    src1 = none ∨ ∃ s, src = some s ∧ src1 = some s ∧ seenAsWildcard grp s = false := by
  unfold normalizeSource at h
  cases src with
  | none =>
    cases hg : grp.sa_family <;> simp [hg] at h
    exact Or.inl h.2.1.symm
  | some s =>
    cases hg : grp.sa_family <;> simp only [hg] at h
    · by_cases hz : s.sin_addr = 0
      · simp [hz] at h
        exact Or.inl h.2.1.symm
      · simp [hz] at h
        exact Or.inr ⟨s, rfl, h.2.1.symm, by simp [seenAsWildcard, hg, hz]⟩
    · by_cases hz : s.sin6_addr = 0
      · simp [hz] at h
      · simp [hz] at h
        exact Or.inr ⟨s, rfl, h.2.1.symm, by simp [seenAsWildcard, hg, hz]⟩
    · simp at h

theorem anySource_of_primitive {o : SockOpt} {grp : SockAddr}
    (h : o.primitive = some (unifiedPrimitive none)
      ∨ o.primitive = some (legacyPrimitive none grp)) : o.isAnySourceJoin = true := by
  unfold unifiedPrimitive legacyPrimitive at h
  cases o <;> cases hg : grp.sa_family <;>
    simp [SockOpt.primitive, hg] at h <;> rfl

/-- One activation of `net_SourceSubscribe`: it appends `tr` to the record, without the
warning of line 453 and with no primitive invoked twice; then it either returns, or
(only for a source that is present, not seen as wildcard and of the group's family)
issues the warning and goes into `net_Subscribe`. -/
theorem subscribe_pass (P : Platform) (C : Config) (W : World) (fd : Int)
    (src : Option SockAddr) (srclen : Nat) (grp : SockAddr) (grplen : Nat) (t : Trace) :
    ∃ tr, asmRetries tr = 0 ∧ (∀ k, attempts k tr ≤ 1)
      ∧ (∀ c ∈ joinCalls tr, c.1 = fd)
      ∧ (src = none → ∀ c ∈ joinCalls tr, c.2.1.isAnySourceJoin = true)
      ∧ ((∃ r, net_SourceSubscribe P C W fd src srclen grp grplen t = (r, t ++ tr)
            ∧ (r = Ret.val 0 ↔ ∃ c ∈ joinCalls tr, c.2.2 = true))
          ∨ (∃ s, src = some s ∧ seenAsWildcard grp s = false
              ∧ familyMismatch (some s) grp = false
              ∧ net_SourceSubscribe P C W fd src srclen grp grplen t
                = net_SourceSubscribe P C W fd none 0 grp grplen
                    (t ++ tr ++ [Event.msg Msg.tryingASM]))) := by
  rw [net_SourceSubscribe_unfold]
  cases h1 : subscribeInterface C W with
  | none =>
    exact ⟨[Event.msg Msg.invalidMcastInterface], by simp, by simp [attempts], by simp,
      by simp, Or.inl ⟨Ret.val (-1), rfl, by simp⟩⟩
  | some iid0 =>
    dsimp only
    cases hn : normalizeSource src grp iid0 with
    | nullDeref =>
      exact ⟨[], by simp, by simp, by simp, by simp, Or.inl ⟨Ret.fault, by simp, by simp⟩⟩
    | unsupported =>
      exact ⟨[], by simp, by simp, by simp, by simp,
        Or.inl ⟨Ret.val (-1), by simp, by simp⟩⟩
    | go level src1 iid =>
      dsimp only
      obtain ⟨r, tu, tl, e1, e2, e3, e4, e5, e6, e7, e8, e9⟩ :=
        joinAttempts_spec P C W fd level iid src1 srclen grp grplen t
      obtain ⟨c1, c2⟩ := pass_calls e3 e4
      have hany : src = none → ∀ c ∈ joinCalls (tu ++ tl), c.2.1.isAnySourceJoin = true := by
        intro hs c hc
        subst hs
        obtain ⟨rfl, -⟩ := normalizeSource_none hn
        rcases (c2 c hc).2 with h | h
        · exact @anySource_of_primitive _ grp (Or.inl h.1)
        · exact anySource_of_primitive (Or.inr h.1)
      rw [e1]
      cases r with
      | some r =>
        dsimp only
        refine ⟨tu ++ tl, e2, c1, fun c hc => (c2 c hc).1, hany,
          Or.inl ⟨Ret.val r, rfl, ?_⟩⟩
        rw [← e7]
        constructor
        · intro h; injection h with h; rw [h]
        · intro h; injection h with h; rw [h]
      | none =>
        dsimp only
        have hno : ¬∃ c ∈ joinCalls (tu ++ tl), c.2.2 = true := by
          rw [← e7]; simp
        split
        · rename_i hs
          rcases normalizeSource_go hn with h | ⟨s, hs1, hs2, hw⟩
          · simp [h] at hs
          · subst hs2
            have hm : familyMismatch (some s) grp = false := by
              by_contra hmm
              exact e8 (by simpa using hmm) rfl
            refine ⟨tu ++ tl ++ [Event.msg Msg.mcastJoinError], by simpa using e2, ?_, ?_, ?_,
              Or.inr ⟨s, hs1, hw, hm, by simp⟩⟩
            · intro k
              rw [attempts_append]
              simpa [attempts] using c1 k
            · intro c hc
              exact (c2 c (by simpa using hc)).1
            · intro h; simp [h] at hs1
        · refine ⟨tu ++ tl ++ [Event.msg Msg.mcastJoinError, Event.msg Msg.mcastNotSupported],
            by simpa using e2, ?_, ?_, ?_, Or.inl ⟨Ret.val (-1), by simp, ?_⟩⟩
          · intro k
            rw [attempts_append]
            simpa [attempts] using c1 k
          · intro c hc
            exact (c2 c (by simpa using hc)).1
          · intro h c hc
            exact hany h c (by simpa using hc)
          · constructor
            · intro h; simp at h
            · intro h
              exact absurd (by simpa using h) hno

/-- C6: `net_SourceSubscribe` returns on every input, having gone back into
`net_Subscribe` at most once (so at most two activations are ever nested); and when
the source is absent (the public `net_Subscribe` entry, which is this call with a
`NULL` source) or is the wildcard address, it never goes back: the negotiation runs
once, and no join primitive is invoked more than once, whatever the primitives
return. -/
theorem C6_subscribe_terminates_any_source_terminal (P : Platform) (C : Config) (W : World)
    (fd : Int) (src : Option SockAddr) (srclen : Nat) (grp : SockAddr) (grplen : Nat)
    (t : Trace) :
    ∃ r tr, net_SourceSubscribe P C W fd src srclen grp grplen t = (r, t ++ tr)
      ∧ asmRetries tr ≤ 1
      ∧ ((src = none ∨ ∃ s, src = some s ∧ s.isWildcard) →
          asmRetries tr = 0 ∧ ∀ k, attempts k tr ≤ 1)
      ∧ net_Subscribe P C W fd grp grplen t
          = net_SourceSubscribe P C W fd none 0 grp grplen t := by
  obtain ⟨tr, h1, h2, -, -, h5⟩ := subscribe_pass P C W fd src srclen grp grplen t
  rcases h5 with ⟨r, hr, -⟩ | ⟨s, hs, hw, hm, hr⟩
  · exact ⟨r, tr, hr, by omega, fun _ => ⟨h1, h2⟩, net_Subscribe_eq ..⟩
  · obtain ⟨tr2, g1, -, -, -, g5⟩ := subscribe_pass P C W fd none 0 grp grplen
      (t ++ tr ++ [Event.msg Msg.tryingASM])
    rcases g5 with ⟨r2, hr2, -⟩ | ⟨s2, hs2, -⟩
    · refine ⟨r2, tr ++ Event.msg Msg.tryingASM :: tr2, ?_, ?_, ?_, net_Subscribe_eq ..⟩
      · rw [hr, hr2]; simp
      · simp [h1, g1]
      · rintro (h | ⟨s', hs', hwild⟩)
        · simp [h] at hs
        · exfalso
          rw [hs] at hs'
          injection hs' with hs'
          subst hs'
          have hfam : s.sa_family = grp.sa_family := by
            simpa [familyMismatch] using hm
          unfold seenAsWildcard at hw
          rcases hwild with ⟨hf, hz⟩ | ⟨hf, hz⟩
          · rw [← hfam, hf] at hw
            simp [hz] at hw
          · rw [← hfam, hf] at hw
            simp [hz] at hw
    · simp at hs2

/-- Instance of C6: the any-source request for 239.1.1.1 with every primitive failing. -/
theorem C6_subscribe_terminates_any_source_terminal_witness :
    ∃ r tr, net_SourceSubscribe linuxPlatform plainConfig (mkWorld [] (fun _ _ => ConnRes.ok) false)
        5 none 0 group4 16 [] = (r, [] ++ tr)
      ∧ asmRetries tr ≤ 1
      ∧ (((none : Option SockAddr) = none ∨ ∃ s, (none : Option SockAddr) = some s ∧ s.isWildcard) →
          asmRetries tr = 0 ∧ ∀ k, attempts k tr ≤ 1)
      ∧ net_Subscribe linuxPlatform plainConfig (mkWorld [] (fun _ _ => ConnRes.ok) false)
          5 group4 16 []
          = net_SourceSubscribe linuxPlatform plainConfig
              (mkWorld [] (fun _ _ => ConnRes.ok) false) 5 none 0 group4 16 [] :=
  C6_subscribe_terminates_any_source_terminal linuxPlatform plainConfig
    (mkWorld [] (fun _ _ => ConnRes.ok) false) 5 none 0 group4 16 []

theorem sourceJoin_of_primitive {o : SockOpt} {s : SockAddr} {grp : SockAddr}
    (hg : grp.sa_family = Family.AF_INET)
    (h : o.primitive = some (unifiedPrimitive (some s))
      ∨ o.primitive = some (legacyPrimitive (some s) grp)) : o.isSourceJoin = true := by
  unfold unifiedPrimitive legacyPrimitive at h
  cases o <;> simp [SockOpt.primitive, hg] at h <;> rfl

/-- One pass over lines 377-446 for an IPv4 group when every join primitive fails and
the lengths are valid: the pass reaches the error message of line 448, and the
primitives it invoked are those matching `src`. -/
theorem joinAttempts_allfail (P : Platform) (C : Config) (W : World) (fd : Int)
    (level : Level) (iid : Nat) (src : Option SockAddr) (srclen : Nat) (grp : SockAddr)
    (grplen : Nat) (t : Trace)
    (hfail : ∀ u d o, o.isJoin = true → W.setsockopt u d o = false)
    (hg : grp.sa_family = Family.AF_INET)
    (hm : familyMismatch src grp = false)
    (h1 : P.sizeof_sockaddr_in ≤ grplen) (h2 : grplen ≤ P.sizeof_sockaddr_storage)
    (h3 : src.isSome = true → P.sizeof_sockaddr_in ≤ srclen)
    (h4 : src.isSome = true → srclen ≤ P.sizeof_sockaddr_storage) :
    ∃ tr, joinAttempts P C W fd level iid src srclen grp grplen t = (none, t ++ tr)
      ∧ asmRetries tr = 0
      ∧ (∀ c ∈ joinCalls tr, c.1 = fd ∧ c.2.2 = false
          ∧ (c.2.1.primitive = some (unifiedPrimitive src)
            ∨ c.2.1.primitive = some (legacyPrimitive src grp))) := by
  obtain ⟨r, tu, tl, e1, e2, e3, e4, e5, e6, e7, e8, e9⟩ :=
    joinAttempts_spec P C W fd level iid src srclen grp grplen t
  obtain ⟨-, c2⟩ := pass_calls e3 e4
  have hcalls : ∀ c ∈ joinCalls (tu ++ tl), c.2.2 = false := by
    intro c hc
    rw [joinCalls_append] at hc
    rcases List.mem_append.1 hc with h | h
    · rcases e3 with rfl | ⟨o, -, hp, rfl⟩
      · simp at h
      · simp only [joinCalls_setsockopt, isJoin_of_primitive hp, if_true, joinCalls_nil,
          List.mem_singleton] at h
        subst h
        exact hfail _ _ _ (isJoin_of_primitive hp)
    · rcases e4 with hl | ⟨o, -, hp, hl⟩
      · simp [hl] at h
      · simp only [hl, List.mem_singleton] at h
        subst h
        exact hfail _ _ _ (isJoin_of_primitive hp)
  have hr : r = none := by
    rcases e6 with h | h | h
    · exfalso
      obtain ⟨c, hc, hok⟩ := e7.1 h
      rw [hcalls c hc] at hok
      exact Bool.false_ne_true hok
    · exact absurd h (e9 h2 h4 hm hg h1 h3)
    · exact h
  subst hr
  refine ⟨tu ++ tl, e1, e2, ?_⟩
  intro c hc
  refine ⟨(c2 c hc).1, hcalls c hc, ?_⟩
  rcases (c2 c hc).2 with h | h
  · exact Or.inl h.1
  · exact Or.inr h.1

/-- C1 as stated fails in two ways.  With a configured interface name that does not
resolve, a source-specific IPv4 request fails at once: nothing is retried.  With an IPv6
group, the retry without source reads `sin6_scope_id` through the `NULL` source
(line 359): the call does not return failure, it faults. -/
theorem C1_no_retry_on_bad_interface_and_ipv6_fault :
    net_SourceSubscribe linuxPlatform ifaceConfig (mkWorld [] (fun _ _ => ConnRes.ok) false)
        5 (some hostAddr) 16 group4 16 []
      = (Ret.val (-1), [Event.msg Msg.invalidMcastInterface])
    ∧ (net_SourceSubscribe linuxPlatform plainConfig (mkWorld [] (fun _ _ => ConnRes.ok) false)
        5 (some source6) 28 group6 28 []).1 = Ret.fault := by
  constructor
  · simp [net_SourceSubscribe_unfold, subscribeInterface, ifaceConfig, mkWorld]
  · simp [net_SourceSubscribe_unfold, subscribeInterface, plainConfig, mkWorld,
      normalizeSource, group6, source6, joinAttempts, unifiedJoin, legacyJoin,
      familyMismatch, net_IPv6Join, sys_setsockopt, linuxPlatform]

theorem subscribeInterface_some (C : Config) (W : World)
    (hiface : ∀ name, C.miface = some name → name ≠ "" → W.if_nametoindex name ≠ 0) :
    ∃ iid0, subscribeInterface C W = some iid0 := by
  unfold subscribeInterface
  cases hc : C.miface with
  | none => exact ⟨0, rfl⟩
  | some name =>
    dsimp only
    by_cases hn : name = ""
    · exact ⟨0, by simp [hn]⟩
    · have := hiface name hc hn
      exact ⟨W.if_nametoindex name, by simp [hn, this]⟩

/-- The any-source negotiation for an IPv4 group when every join primitive fails. -/
theorem subscribe_asm_allfail (P : Platform) (C : Config) (W : World) (fd : Int)
    (srclen : Nat) (grp : SockAddr) (grplen : Nat) (t : Trace) (iid0 : Nat)
    (hI : subscribeInterface C W = some iid0)
    (hfail : ∀ u d o, o.isJoin = true → W.setsockopt u d o = false)
    (hg : grp.sa_family = Family.AF_INET)
    (h1 : P.sizeof_sockaddr_in ≤ grplen) (h2 : grplen ≤ P.sizeof_sockaddr_storage) :
    ∃ t2, net_SourceSubscribe P C W fd none srclen grp grplen t = (Ret.val (-1), t ++ t2)
      ∧ asmRetries t2 = 0
      ∧ (∀ c ∈ joinCalls t2, c.1 = fd ∧ c.2.1.isAnySourceJoin = true) := by
  have hn : normalizeSource none grp iid0 = Normalized.go Level.SOL_IP none iid0 := by
    simp [normalizeSource, hg]
  obtain ⟨tr, e1, e2, e3⟩ := joinAttempts_allfail P C W fd Level.SOL_IP iid0 none srclen grp
    grplen t hfail hg (by simp [familyMismatch]) h1 h2 (by simp) (by simp)
  refine ⟨tr ++ [Event.msg Msg.mcastJoinError, Event.msg Msg.mcastNotSupported], ?_, ?_, ?_⟩
  · rw [net_SourceSubscribe_unfold]
    simp only [hI, hn, e1]
    simp
  · simpa using e2
  · intro c hc
    have hc' : c ∈ joinCalls tr := by simpa using hc
    exact ⟨(e3 c hc').1, anySource_of_primitive (e3 c hc').2.2⟩

/-- C1, amended: for an IPv4 group, a source that is present, is not the wildcard
address, is an IPv4 address and has valid lengths, with a configured interface name
that is empty or resolves, and with every join primitive failing: the negotiation runs
exactly twice. The first run (`t1`) issues source-specific joins only; then comes the
single warning of line 453; the second run (`t2`) is the run of `net_Subscribe` on the
same group, it issues any-source joins only; the result is `-1`. -/
theorem C1_source_failure_retries_once_without_source (P : Platform) (C : Config)
    (W : World) (fd : Int) (src : SockAddr) (srclen : Nat) (grp : SockAddr) (grplen : Nat)
    (t : Trace)
    (hgrp : grp.sa_family = Family.AF_INET) (hsrc : src.sa_family = Family.AF_INET)
    (hnw : src.sin_addr ≠ 0)
    (hglen : P.sizeof_sockaddr_in ≤ grplen ∧ grplen ≤ P.sizeof_sockaddr_storage)
    (hslen : P.sizeof_sockaddr_in ≤ srclen ∧ srclen ≤ P.sizeof_sockaddr_storage)
    (hiface : ∀ name, C.miface = some name → name ≠ "" → W.if_nametoindex name ≠ 0)
    (hfail : ∀ u d o, o.isJoin = true → W.setsockopt u d o = false) :
    ∃ t1 t2,
      net_SourceSubscribe P C W fd (some src) srclen grp grplen t
        = (Ret.val (-1), t ++ t1 ++ Event.msg Msg.tryingASM :: t2)
      ∧ net_Subscribe P C W fd grp grplen (t ++ t1 ++ [Event.msg Msg.tryingASM])
        = (Ret.val (-1), t ++ t1 ++ Event.msg Msg.tryingASM :: t2)
      ∧ asmRetries t1 = 0 ∧ asmRetries t2 = 0
      ∧ (∀ c ∈ joinCalls t1, c.1 = fd ∧ c.2.1.isSourceJoin = true)
      ∧ (∀ c ∈ joinCalls t2, c.1 = fd ∧ c.2.1.isAnySourceJoin = true) := by
  obtain ⟨iid0, hI⟩ := subscribeInterface_some C W hiface
  have hn : normalizeSource (some src) grp iid0
      = Normalized.go Level.SOL_IP (some src) iid0 := by
    simp [normalizeSource, hgrp, hnw]
  obtain ⟨tr, e1, e2, e3⟩ := joinAttempts_allfail P C W fd Level.SOL_IP iid0 (some src)
    srclen grp grplen t hfail hgrp (by simp [familyMismatch, hgrp, hsrc]) hglen.1 hglen.2
    (fun _ => hslen.1) (fun _ => hslen.2)
  obtain ⟨t2, g1, g2, g3⟩ := subscribe_asm_allfail P C W fd 0 grp grplen
    (t ++ (tr ++ [Event.msg Msg.mcastJoinError]) ++ [Event.msg Msg.tryingASM]) iid0 hI hfail
    hgrp hglen.1 hglen.2
  refine ⟨tr ++ [Event.msg Msg.mcastJoinError], t2, ?_, ?_, by simpa using e2, g2, ?_, g3⟩
  · rw [net_SourceSubscribe_unfold]
    simp only [hI, hn, e1, Option.isSome_some, if_true]
    have : t ++ tr ++ [Event.msg Msg.mcastJoinError, Event.msg Msg.tryingASM]
        = t ++ (tr ++ [Event.msg Msg.mcastJoinError]) ++ [Event.msg Msg.tryingASM] := by simp
    rw [this, g1]
    simp
  · rw [net_Subscribe_eq, g1]
    simp
  · intro c hc
    have hc' : c ∈ joinCalls tr := by simpa using hc
    exact ⟨(e3 c hc').1, sourceJoin_of_primitive hgrp (e3 c hc').2.2⟩

/-- Instance of C1 (amended): source 198.51.100.7, group 239.1.1.1, every primitive failing. -/
theorem C1_source_failure_retries_once_without_source_witness :
    ∃ t1 t2,
      net_SourceSubscribe linuxPlatform plainConfig (mkWorld [] (fun _ _ => ConnRes.ok) false)
          5 (some hostAddr) 16 group4 16 []
        = (Ret.val (-1), [] ++ t1 ++ Event.msg Msg.tryingASM :: t2)
      ∧ net_Subscribe linuxPlatform plainConfig (mkWorld [] (fun _ _ => ConnRes.ok) false)
          5 group4 16 ([] ++ t1 ++ [Event.msg Msg.tryingASM])
        = (Ret.val (-1), [] ++ t1 ++ Event.msg Msg.tryingASM :: t2)
      ∧ asmRetries t1 = 0 ∧ asmRetries t2 = 0
      ∧ (∀ c ∈ joinCalls t1, c.1 = 5 ∧ c.2.1.isSourceJoin = true)
      ∧ (∀ c ∈ joinCalls t2, c.1 = 5 ∧ c.2.1.isAnySourceJoin = true) :=
  C1_source_failure_retries_once_without_source linuxPlatform plainConfig
    (mkWorld [] (fun _ _ => ConnRes.ok) false) 5 hostAddr 16 group4 16 []
    rfl rfl (by decide) (by decide) (by decide) (by intro name h; cases h)
    (fun _ _ _ _ => rfl)

/-- C5 as stated fails where the unified join API is available: for an IPv6 source and
an IPv4 group the unified source-group join is issued before the family test of
line 418, and when the system accepts it the call succeeds. -/
theorem C5_unified_join_precedes_family_test :
    source6.sa_family ≠ group4.sa_family
    ∧ net_SourceSubscribe linuxPlatform plainConfig (mkWorld [] (fun _ _ => ConnRes.ok) true)
        5 (some source6) 28 group4 16 []
      = (Ret.val 0,
          [Event.setsockopt 5
            (SockOpt.MCAST_JOIN_SOURCE_GROUP Level.SOL_IP 0 group4 16 source6 28) true])
    ∧ net_SourceSubscribe linuxPlatform plainConfig (mkWorld [] (fun _ _ => ConnRes.ok) false)
        5 (some source6) 28 group4 16 []
      = (Ret.val (-1),
          [Event.setsockopt 5
            (SockOpt.MCAST_JOIN_SOURCE_GROUP Level.SOL_IP 0 group4 16 source6 28) false]) := by
  refine ⟨by decide, ?_, ?_⟩
  · simp [net_SourceSubscribe_unfold, subscribeInterface, plainConfig, mkWorld,
      normalizeSource, group4, source6, joinAttempts, unifiedJoin, sys_setsockopt,
      linuxPlatform]
  · simp [net_SourceSubscribe_unfold, subscribeInterface, plainConfig, mkWorld,
      normalizeSource, group4, source6, joinAttempts, unifiedJoin, legacyJoin,
      familyMismatch, sys_setsockopt, linuxPlatform]

theorem normalizeSource_some {s : SockAddr} {grp : SockAddr} (iid0 : Nat)
    (hw : seenAsWildcard grp s = false) :
    normalizeSource (some s) grp iid0 = Normalized.unsupported
      ∨ ∃ level iid, normalizeSource (some s) grp iid0 = Normalized.go level (some s) iid := by
  unfold seenAsWildcard at hw
  unfold normalizeSource
  cases hg : grp.sa_family <;> simp only [hg] at hw ⊢
  · have hz : ¬s.sin_addr = 0 := by simpa using hw
    exact Or.inr ⟨Level.SOL_IP, iid0, by simp [hz]⟩
  · have hz : ¬s.sin6_addr = 0 := by simpa using hw
    exact Or.inr ⟨Level.SOL_IPV6, if s.sin6_scope_id ≠ 0 then s.sin6_scope_id else iid0,
      by simp [hz]⟩
  · exact Or.inl trivial

/-- C5, amended: for a source that is present, is not dropped as wildcard and whose
family differs from the group's, no legacy primitive and no any-source join is ever
invoked and nothing is retried.  The only primitive the call can invoke is the unified
source-group join, at most once, and the call succeeds exactly when that join succeeds;
where the unified API is not available, no join primitive is invoked at all and the
call fails. -/
theorem C5_family_mismatch_no_legacy_join (P : Platform) (C : Config) (W : World)
    (fd : Int) (s : SockAddr) (srclen : Nat) (grp : SockAddr) (grplen : Nat) (t : Trace)
    (hfam : s.sa_family ≠ grp.sa_family) (hw : seenAsWildcard grp s = false) :
    ∃ r tr, net_SourceSubscribe P C W fd (some s) srclen grp grplen t = (r, t ++ tr)
      ∧ asmRetries tr = 0
      ∧ (∀ c ∈ joinCalls tr,
          c.1 = fd ∧ c.2.1.primitive = some JoinPrimitive.unifiedSourceGroup)
      ∧ (joinCalls tr).length ≤ 1
      ∧ (r = Ret.val 0 ∨ r = Ret.val (-1))
      ∧ (r = Ret.val 0 ↔ ∃ c ∈ joinCalls tr, c.2.2 = true)
      ∧ (P.MCAST_JOIN_SOURCE_GROUP = false → r = Ret.val (-1) ∧ joinCalls tr = []) := by
  have hmm : familyMismatch (some s) grp = true := by simp [familyMismatch, hfam]
  rw [net_SourceSubscribe_unfold]
  cases h1 : subscribeInterface C W with
  | none =>
    exact ⟨Ret.val (-1), [Event.msg Msg.invalidMcastInterface], rfl, by simp, by simp,
      by simp, by simp, by simp, by simp⟩
  | some iid0 =>
    dsimp only
    rcases normalizeSource_some iid0 hw with hn | ⟨level, iid, hn⟩
    · rw [hn]
      exact ⟨Ret.val (-1), [], by simp, by simp, by simp, by simp, by simp, by simp,
        by simp⟩
    · rw [hn]
      dsimp only
      obtain ⟨r, tu, tl, e1, e2, e3, e4, e5, e6, e7, e8, e9⟩ :=
        joinAttempts_spec P C W fd level iid (some s) srclen grp grplen t
      have hl : joinCalls tl = [] := by
        rcases e4 with h | ⟨o, hm, -⟩
        · exact h
        · rw [hmm] at hm; cases hm
      rw [e1]
      have hcalls : (∀ c ∈ joinCalls (tu ++ tl),
            c.1 = fd ∧ c.2.1.primitive = some JoinPrimitive.unifiedSourceGroup)
          ∧ (joinCalls (tu ++ tl)).length ≤ 1 := by
        rcases e3 with rfl | ⟨o, -, hp, rfl⟩
        · simp [hl]
        · have hj := isJoin_of_primitive hp
          simp only [joinCalls_append, joinCalls_setsockopt, hj, if_true, joinCalls_nil, hl,
            List.append_nil, List.mem_singleton, List.length_singleton, le_refl, and_true]
          intro c hc
          subst hc
          exact ⟨rfl, by simpa [unifiedPrimitive] using hp⟩
      cases r with
      | none => exact absurd rfl (e8 hmm)
      | some v =>
        dsimp only
        refine ⟨Ret.val v, tu ++ tl, rfl, e2, hcalls.1, hcalls.2, ?_, ?_, ?_⟩
        · rcases e6 with h | h | h
          · injection h with h; exact Or.inl (by rw [h])
          · injection h with h; exact Or.inr (by rw [h])
          · cases h
        · rw [← e7]
          constructor
          · intro h; injection h with h; rw [h]
          · intro h; injection h with h; rw [h]
        · intro hP
          have htu := e5 hP
          subst htu
          have hj : joinCalls ([] ++ tl) = [] := by simpa using hl
          refine ⟨?_, hj⟩
          rcases e6 with h | h | h
          · exfalso
            obtain ⟨c, hc, -⟩ := e7.1 h
            rw [hj] at hc
            cases hc
          · injection h with h; rw [h]
          · cases h

/-- Instance of C5 (amended): an IPv6 source for the IPv4 group 239.1.1.1. -/
theorem C5_family_mismatch_no_legacy_join_witness :
    ∃ r tr, net_SourceSubscribe linuxPlatform plainConfig
        (mkWorld [] (fun _ _ => ConnRes.ok) false) 5 (some source6) 28 group4 16 []
          = (r, [] ++ tr)
      ∧ asmRetries tr = 0
      ∧ (∀ c ∈ joinCalls tr,
          c.1 = 5 ∧ c.2.1.primitive = some JoinPrimitive.unifiedSourceGroup)
      ∧ (joinCalls tr).length ≤ 1
      ∧ (r = Ret.val 0 ∨ r = Ret.val (-1))
      ∧ (r = Ret.val 0 ↔ ∃ c ∈ joinCalls tr, c.2.2 = true)
      ∧ (linuxPlatform.MCAST_JOIN_SOURCE_GROUP = false →
          r = Ret.val (-1) ∧ joinCalls tr = []) :=
  C5_family_mismatch_no_legacy_join linuxPlatform plainConfig
    (mkWorld [] (fun _ _ => ConnRes.ok) false) 5 source6 28 group4 16 []
    (by decide) (by decide)

/-! ## The loops of `__net_OpenUDP` -/

theorem subscribe_extends (P : Platform) (C : Config) (W : World) (fd : Int)
    (src : Option SockAddr) (srclen : Nat) (grp : SockAddr) (grplen : Nat) (t : Trace) :
    t <+: (net_SourceSubscribe P C W fd src srclen grp grplen t).2 := by
  obtain ⟨tr, -, -, -, -, h5⟩ := subscribe_pass P C W fd src srclen grp grplen t
  rcases h5 with ⟨r, hr, -⟩ | ⟨s, -, -, -, hr⟩
  · rw [hr]; exact List.prefix_append t tr
  · obtain ⟨tr2, -, -, -, -, g5⟩ := subscribe_pass P C W fd none 0 grp grplen
      (t ++ tr ++ [Event.msg Msg.tryingASM])
    rcases g5 with ⟨r2, hr2, -⟩ | ⟨s2, hs2, -⟩
    · rw [hr, hr2]
      simp only [List.append_assoc]
      exact List.prefix_append t _
    · simp at hs2

theorem openOptions_extends (P : Platform) (W : World) (fd : Int) (t : Trace) :
    t <+: openOptions P W fd t := by
  unfold openOptions
  simp only [sys_setsockopt]
  repeat' split
  all_goals simp

/-- The inner loop only appends to the record. -/
theorem openRemoteLoop_extends (P : Platform) (C : Config) (W : World) (fd : Int)
    (ptr : AddrInfo) (i : Nat) :
    ∀ (rems : List AddrInfo) (j : Nat) (t : Trace),
      t <+: (openRemoteLoop P C W fd ptr i rems j t).2 := by
  intro rems
  induction rems with
  | nil => intro j t; simp [openRemoteLoop]
  | cons ptr2 rest ih =>
    intro j t
    unfold openRemoteLoop
    split
    · exact ih ..
    · split
      · have hs := subscribe_extends P C W fd (some ptr2.ai_addr) ptr2.ai_addrlen ptr.ai_addr
          ptr.ai_addrlen t
        split
        · rename_i t1 heq
          rw [heq] at hs
          exact hs
        · rename_i r t1 heq
          rw [heq] at hs
          split
          · exact hs
          · exact hs.trans (ih ..)
      · dsimp only
        split
        · exact List.prefix_append ..
        · exact (List.prefix_append ..).trans (ih ..)

/-- When the inner loop stops at a remote candidate, that candidate matches the bound
local candidate, and the step taken on it succeeded: the membership negotiation (for a
multicast local address) or `connect` (otherwise).  The step is the last thing the
loop did. -/
theorem openRemoteLoop_found (P : Platform) (C : Config) (W : World) (fd : Int)
    (ptr : AddrInfo) (i : Nat) :
    ∀ (rems : List AddrInfo) (j : Nat) (t u : Trace) (k : Nat),
      openRemoteLoop P C W fd ptr i rems j t = (Ret.val (some k), u) →
      ∃ m R, rems[m]? = some R ∧ k = j + m
        ∧ R.ai_family = ptr.ai_family ∧ R.ai_socktype = ptr.ai_socktype
        ∧ R.ai_protocol = ptr.ai_protocol
        ∧ (if W.net_SockAddrIsMulticast ptr.ai_addr ptr.ai_addrlen = true then
            ∃ t0, t <+: t0 ∧ net_SourceSubscribe P C W fd (some R.ai_addr) R.ai_addrlen
              ptr.ai_addr ptr.ai_addrlen t0 = (Ret.val 0, u)
          else
            W.connect i k = ConnRes.ok
              ∧ ∃ pre, t <+: pre
                ∧ u = pre ++ [Event.connect fd R.ai_addr R.ai_addrlen ConnRes.ok]) := by
  intro rems
  induction rems with
  | nil => intro j t u k h; simp [openRemoteLoop] at h
  | cons ptr2 rest ih =>
    intro j t u k h
    have hrec : ∀ t1, t <+: t1 →
        openRemoteLoop P C W fd ptr i rest (j + 1) t1 = (Ret.val (some k), u) →
        ∃ m R, (ptr2 :: rest)[m]? = some R ∧ k = j + m
        ∧ R.ai_family = ptr.ai_family ∧ R.ai_socktype = ptr.ai_socktype
        ∧ R.ai_protocol = ptr.ai_protocol
        ∧ (if W.net_SockAddrIsMulticast ptr.ai_addr ptr.ai_addrlen = true then
            ∃ t0, t <+: t0 ∧ net_SourceSubscribe P C W fd (some R.ai_addr) R.ai_addrlen
              ptr.ai_addr ptr.ai_addrlen t0 = (Ret.val 0, u)
          else
            W.connect i k = ConnRes.ok
              ∧ ∃ pre, t <+: pre
                ∧ u = pre ++ [Event.connect fd R.ai_addr R.ai_addrlen ConnRes.ok]) := by
      intro t1 hpre h1
      obtain ⟨m, R, hR, hk, f1, f2, f3, f4⟩ := ih (j + 1) t1 u k h1
      refine ⟨m + 1, R, by simpa using hR, by omega, f1, f2, f3, ?_⟩
      split
      · rename_i hmc
        rw [if_pos hmc] at f4
        obtain ⟨t0, ht0, hsub⟩ := f4
        exact ⟨t0, hpre.trans ht0, hsub⟩
      · rename_i hmc
        rw [if_neg hmc] at f4
        obtain ⟨hc, pre, hp, hu⟩ := f4
        exact ⟨hc, pre, hpre.trans hp, hu⟩
    unfold openRemoteLoop at h
    split at h
    · exact hrec t (List.prefix_refl t) h
    · rename_i hmatch
      have hmatch' : ptr2.ai_family = ptr.ai_family ∧ ptr2.ai_socktype = ptr.ai_socktype
          ∧ ptr2.ai_protocol = ptr.ai_protocol := by
        simpa [not_or] using hmatch
      split at h
      · rename_i hmc
        have hs := subscribe_extends P C W fd (some ptr2.ai_addr) ptr2.ai_addrlen ptr.ai_addr
          ptr.ai_addrlen t
        split at h
        · simp at h
        · rename_i r t1 heq
          rw [heq] at hs
          split at h
          · rename_i hr
            simp only [Prod.mk.injEq, Ret.val.injEq, Option.some.injEq] at h
            obtain ⟨hk, hu⟩ := h
            subst hu hr
            refine ⟨0, ptr2, by simp, by omega, hmatch'.1, hmatch'.2.1, hmatch'.2.2, ?_⟩
            rw [if_pos hmc]
            exact ⟨t, List.prefix_refl t, heq⟩
          · exact hrec t1 hs h
      · rename_i hmc
        dsimp only at h
        split at h
        · rename_i hc
          simp only [Prod.mk.injEq, Ret.val.injEq, Option.some.injEq] at h
          obtain ⟨hk, hu⟩ := h
          subst hu
          refine ⟨0, ptr2, by simp, by omega, hmatch'.1, hmatch'.2.1, hmatch'.2.2, ?_⟩
          rw [if_neg hmc]
          refine ⟨by rw [← hk]; exact hc, t, List.prefix_refl t, ?_⟩
          rw [hc]
        · exact hrec _ (List.prefix_append ..) h

/-- The outer loop only appends to the record. -/
theorem openLocalLoop_extends (P : Platform) (C : Config) (W : World) (rem : List AddrInfo) :
    ∀ (locs : List AddrInfo) (i : Nat) (t : Trace),
      t <+: (openLocalLoop P C W rem locs i t).2 := by
  intro locs
  induction locs with
  | nil => intro i t; simp [openLocalLoop]
  | cons ptr rest ih =>
    intro i t
    have h0 : t <+: openOptions P W (W.net_Socket i) (t ++ [Event.socket i ptr (W.net_Socket i)]) :=
      (List.prefix_append ..).trans (openOptions_extends ..)
    have hin : ∀ t2, t <+: t2 → t <+:
        (match openRemoteLoop P C W (W.net_Socket i) ptr i rem 0 t2 with
        | (Ret.fault, t3) => (Ret.fault, t3)
        | (Ret.val none, t3) =>
          openLocalLoop P C W rem rest (i + 1)
            (t3 ++ [Event.msg Msg.cannotConnect, Event.close (W.net_Socket i)])
        | (Ret.val (some _), t3) => (Ret.val (W.net_Socket i), t3)).2 := by
      intro t2 h2
      have hr := openRemoteLoop_extends P C W (W.net_Socket i) ptr i rem 0 t2
      split
      · rename_i t3 heq; rw [heq] at hr; exact h2.trans hr
      · rename_i t3 heq; rw [heq] at hr
        exact (h2.trans hr).trans ((List.prefix_append ..).trans (ih ..))
      · rename_i t3 heq; rw [heq] at hr; exact h2.trans hr
    unfold openLocalLoop
    dsimp only
    split
    · exact (List.prefix_append ..).trans (ih ..)
    · split
      · exact hin _ (h0.trans (List.prefix_append ..))
      · split
        · exact hin _ (h0.trans (List.prefix_append ..))
        · exact (h0.trans (List.prefix_append ..)).trans (ih ..)

/-- When the outer loop returns a descriptor, it is the socket of a local candidate `L`
on which the inner loop stopped at a matching remote candidate `R`, after a successful
negotiation (multicast `L`) or `connect` (otherwise); and, except on the Windows path
for a multicast `L`, `bind` to `L` succeeded. -/
theorem openLocalLoop_found (P : Platform) (C : Config) (W : World) (rem : List AddrInfo) :
    ∀ (locs : List AddrInfo) (i : Nat) (t u : Trace) (fd : Int),
      openLocalLoop P C W rem locs i t = (Ret.val fd, u) → fd ≠ -1 →
      ∃ m L j R, locs[m]? = some L ∧ rem[j]? = some R ∧ fd = W.net_Socket (i + m)
        ∧ R.ai_family = L.ai_family ∧ R.ai_socktype = L.ai_socktype
        ∧ R.ai_protocol = L.ai_protocol
        ∧ (¬(P.WIN32 = true ∧ W.net_SockAddrIsMulticast L.ai_addr L.ai_addrlen = true
              ∧ P.sizeof_sockaddr_storage ≥ L.ai_addrlen) →
            W.bind (i + m) = true ∧ Event.bind fd L.ai_addr L.ai_addrlen true ∈ u)
        ∧ (if W.net_SockAddrIsMulticast L.ai_addr L.ai_addrlen = true then
            ∃ t0, t <+: t0 ∧ net_SourceSubscribe P C W fd (some R.ai_addr) R.ai_addrlen
              L.ai_addr L.ai_addrlen t0 = (Ret.val 0, u)
          else
            W.connect (i + m) j = ConnRes.ok
              ∧ ∃ pre, t <+: pre
                ∧ u = pre ++ [Event.connect fd R.ai_addr R.ai_addrlen ConnRes.ok]) := by
  intro locs
  induction locs with
  | nil =>
    intro i t u fd h hfd
    simp only [openLocalLoop, Prod.mk.injEq, Ret.val.injEq] at h
    exact absurd h.1.symm hfd
  | cons ptr rest ih =>
    intro i t u fd h hfd
    have hrec : ∀ t1, t <+: t1 →
        openLocalLoop P C W rem rest (i + 1) t1 = (Ret.val fd, u) →
        ∃ m L j R, (ptr :: rest)[m]? = some L ∧ rem[j]? = some R ∧ fd = W.net_Socket (i + m)
        ∧ R.ai_family = L.ai_family ∧ R.ai_socktype = L.ai_socktype
        ∧ R.ai_protocol = L.ai_protocol
        ∧ (¬(P.WIN32 = true ∧ W.net_SockAddrIsMulticast L.ai_addr L.ai_addrlen = true
              ∧ P.sizeof_sockaddr_storage ≥ L.ai_addrlen) →
            W.bind (i + m) = true ∧ Event.bind fd L.ai_addr L.ai_addrlen true ∈ u)
        ∧ (if W.net_SockAddrIsMulticast L.ai_addr L.ai_addrlen = true then
            ∃ t0, t <+: t0 ∧ net_SourceSubscribe P C W fd (some R.ai_addr) R.ai_addrlen
              L.ai_addr L.ai_addrlen t0 = (Ret.val 0, u)
          else
            W.connect (i + m) j = ConnRes.ok
              ∧ ∃ pre, t <+: pre
                ∧ u = pre ++ [Event.connect fd R.ai_addr R.ai_addrlen ConnRes.ok]) := by
      intro t1 hpre h1
      obtain ⟨m, L, j, R, hL, hR, hfd', f1, f2, f3, f4, f5⟩ := ih (i + 1) t1 u fd h1 hfd
      have hidx : i + 1 + m = i + (m + 1) := by omega
      rw [hidx] at hfd' f4 f5
      refine ⟨m + 1, L, j, R, by simpa using hL, hR, hfd', f1, f2, f3, f4, ?_⟩
      split
      · rename_i hmc
        rw [if_pos hmc] at f5
        obtain ⟨t0, ht0, hsub⟩ := f5
        exact ⟨t0, hpre.trans ht0, hsub⟩
      · rename_i hmc
        rw [if_neg hmc] at f5
        obtain ⟨hc, pre, hp, hu⟩ := f5
        exact ⟨hc, pre, hpre.trans hp, hu⟩
    have h0 : t <+: openOptions P W (W.net_Socket i) (t ++ [Event.socket i ptr (W.net_Socket i)]) :=
      (List.prefix_append ..).trans (openOptions_extends ..)
    have hin : ∀ t2, t <+: t2 →
        (¬(P.WIN32 = true ∧ W.net_SockAddrIsMulticast ptr.ai_addr ptr.ai_addrlen = true
              ∧ P.sizeof_sockaddr_storage ≥ ptr.ai_addrlen) →
            W.bind i = true ∧ Event.bind (W.net_Socket i) ptr.ai_addr ptr.ai_addrlen true ∈ t2) →
        (match openRemoteLoop P C W (W.net_Socket i) ptr i rem 0 t2 with
        | (Ret.fault, t3) => (Ret.fault, t3)
        | (Ret.val none, t3) =>
          openLocalLoop P C W rem rest (i + 1)
            (t3 ++ [Event.msg Msg.cannotConnect, Event.close (W.net_Socket i)])
        | (Ret.val (some _), t3) => (Ret.val (W.net_Socket i), t3)) = (Ret.val fd, u) →
        ∃ m L j R, (ptr :: rest)[m]? = some L ∧ rem[j]? = some R ∧ fd = W.net_Socket (i + m)
        ∧ R.ai_family = L.ai_family ∧ R.ai_socktype = L.ai_socktype
        ∧ R.ai_protocol = L.ai_protocol
        ∧ (¬(P.WIN32 = true ∧ W.net_SockAddrIsMulticast L.ai_addr L.ai_addrlen = true
              ∧ P.sizeof_sockaddr_storage ≥ L.ai_addrlen) →
            W.bind (i + m) = true ∧ Event.bind fd L.ai_addr L.ai_addrlen true ∈ u)
        ∧ (if W.net_SockAddrIsMulticast L.ai_addr L.ai_addrlen = true then
            ∃ t0, t <+: t0 ∧ net_SourceSubscribe P C W fd (some R.ai_addr) R.ai_addrlen
              L.ai_addr L.ai_addrlen t0 = (Ret.val 0, u)
          else
            W.connect (i + m) j = ConnRes.ok
              ∧ ∃ pre, t <+: pre
                ∧ u = pre ++ [Event.connect fd R.ai_addr R.ai_addrlen ConnRes.ok]) := by
      intro t2 h2 hbind hm
      have hr := openRemoteLoop_extends P C W (W.net_Socket i) ptr i rem 0 t2
      split at hm
      · simp at hm
      · rename_i t3 heq
        rw [heq] at hr
        exact hrec _ ((h2.trans hr).trans (List.prefix_append ..)) hm
      · rename_i k t3 heq
        rw [heq] at hr
        simp only [Prod.mk.injEq, Ret.val.injEq] at hm
        obtain ⟨hfd', hu⟩ := hm
        subst hu hfd'
        obtain ⟨m, R, hR, hk, f1, f2, f3, f4⟩ :=
          openRemoteLoop_found P C W (W.net_Socket i) ptr i rem 0 t2 t3 k heq
        have hkm : k = m := by omega
        subst hkm
        refine ⟨0, ptr, k, R, by simp, hR, rfl, f1, f2, f3, ?_, ?_⟩
        · intro hnw
          obtain ⟨b1, b2⟩ := hbind hnw
          exact ⟨b1, hr.subset b2⟩
        · split
          · rename_i hmc
            rw [if_pos hmc] at f4
            obtain ⟨t0, ht0, hsub⟩ := f4
            exact ⟨t0, h2.trans ht0, hsub⟩
          · rename_i hmc
            rw [if_neg hmc] at f4
            obtain ⟨hc, pre, hp, hu⟩ := f4
            exact ⟨hc, pre, h2.trans hp, hu⟩
    unfold openLocalLoop at h
    dsimp only at h
    split at h
    · exact hrec _ (List.prefix_append ..) h
    · split at h
      · rename_i hwin
        exact hin _ (h0.trans (List.prefix_append ..)) (fun hn => absurd hwin hn) h
      · split at h
        · rename_i hb
          refine hin _ (h0.trans (List.prefix_append ..)) (fun _ => ⟨hb, ?_⟩) h
          simp
        · exact hrec _ ((h0.trans (List.prefix_append ..))) h

/-- C3 as stated fails on a Windows build: for the multicast local candidate
239.1.1.1:5004 the socket is bound to the wildcard address with that port, the result
of `bind` is not looked at, and with `bind` failing the descriptor is still returned
once the join succeeds. -/
theorem C3_windows_returns_unbound_handle :
    (mkOpenWorld [groupCand] [hostCand] false true).bind 0 = false
    ∧ __net_OpenUDP windowsPlatform plainConfig (mkOpenWorld [groupCand] [hostCand] false true)
        (some "239.1.1.1") 5004 none 0 []
      = (Ret.val 3,
          [Event.getaddrinfo none 0
              { ai_socktype := SOCK_DGRAM, ai_protocol := IPPROTO_UDP, ai_flags := AI_PASSIVE }
              true,
           Event.getaddrinfo (some "239.1.1.1") 5004
              { ai_socktype := SOCK_DGRAM, ai_protocol := IPPROTO_UDP, ai_flags := AI_PASSIVE }
              true,
           Event.socket 0 groupCand 3,
           Event.setsockopt 3 (SockOpt.SO_RCVBUF 0x80000) true,
           Event.setsockopt 3 (SockOpt.SO_SNDBUF 0x80000) true,
           Event.bind 3 (dumbAddr group4) 16 false,
           Event.setsockopt 3
              (SockOpt.MCAST_JOIN_SOURCE_GROUP Level.SOL_IP 0 group4 16 hostAddr 16) true]) := by
  refine ⟨rfl, ?_⟩
  simp [__net_OpenUDP, mkOpenWorld, openLocalLoop, openRemoteLoop, openOptions,
    sys_setsockopt, windowsPlatform, linuxPlatform, groupCand, hostCand, group4, hostAddr,
    net_SourceSubscribe_unfold, subscribeInterface, plainConfig, normalizeSource,
    joinAttempts, unifiedJoin, SockOpt.isJoin, dumbAddr, SOCK_DGRAM, IPPROTO_UDP, AI_PASSIVE]

/-! ## `__net_OpenUDP` -/

/-- C3, amended: whenever `__net_OpenUDP` returns a handle, the handle is the socket of
a local candidate `L`, and there is a remote candidate `R` with the family, socket type
and protocol of `L` such that: if `L` is multicast, `net_SourceSubscribe` called on the
handle with source `R` and group `L` returned `0` (and the call returned right then);
otherwise `connect` of the handle to `R` succeeded (as the last step of the call).
Unless the build is for Windows and `L` is multicast (and fits a `sockaddr_storage`),
`bind` of the handle to `L` succeeded. -/
theorem C3_returned_handle_is_joined_or_connected (P : Platform) (C : Config) (W : World)
    (psz_bind : Option String) (i_bind : Int) (psz_server : Option String) (i_server : Int)
    (t u : Trace) (fd : Int)
    (h : __net_OpenUDP P C W psz_bind i_bind psz_server i_server t = (Ret.val fd, u))
    (hfd : fd ≠ -1) :
    ∃ loc rem i j L R,
      W.vlc_getaddrinfo psz_bind i_bind
        { ai_socktype := SOCK_DGRAM, ai_protocol := IPPROTO_UDP, ai_flags := AI_PASSIVE }
        = Except.ok loc
      ∧ W.vlc_getaddrinfo psz_server i_server
        { ai_socktype := SOCK_DGRAM, ai_protocol := IPPROTO_UDP, ai_flags := AI_PASSIVE }
        = Except.ok rem
      ∧ loc[i]? = some L ∧ rem[j]? = some R ∧ fd = W.net_Socket i
      ∧ R.ai_family = L.ai_family ∧ R.ai_socktype = L.ai_socktype
      ∧ R.ai_protocol = L.ai_protocol
      ∧ (¬(P.WIN32 = true ∧ W.net_SockAddrIsMulticast L.ai_addr L.ai_addrlen = true
            ∧ P.sizeof_sockaddr_storage ≥ L.ai_addrlen) →
          W.bind i = true ∧ Event.bind fd L.ai_addr L.ai_addrlen true ∈ u)
      ∧ (if W.net_SockAddrIsMulticast L.ai_addr L.ai_addrlen = true then
          ∃ t0, t <+: t0 ∧ net_SourceSubscribe P C W fd (some R.ai_addr) R.ai_addrlen
            L.ai_addr L.ai_addrlen t0 = (Ret.val 0, u)
        else
          W.connect i j = ConnRes.ok
            ∧ ∃ pre, t <+: pre
              ∧ u = pre ++ [Event.connect fd R.ai_addr R.ai_addrlen ConnRes.ok]) := by
  unfold __net_OpenUDP at h
  dsimp only at h
  split at h
  · simp only [Prod.mk.injEq, Ret.val.injEq] at h
    exact absurd h.1.symm hfd
  · rename_i rem hrem
    split at h
    · simp only [Prod.mk.injEq, Ret.val.injEq] at h
      exact absurd h.1.symm hfd
    · rename_i loc hloc
      obtain ⟨m, L, j, R, hL, hR, hfd', f1, f2, f3, f4, f5⟩ :=
        openLocalLoop_found P C W rem loc 0 _ u fd h hfd
      simp only [Nat.zero_add] at hfd' f4 f5
      refine ⟨loc, rem, m, j, L, R, hloc, hrem, hL, hR, hfd', f1, f2, f3, f4, ?_⟩
      split
      · rename_i hmc
        rw [if_pos hmc] at f5
        obtain ⟨t0, ht0, hsub⟩ := f5
        exact ⟨t0, (List.prefix_append ..).trans ht0, hsub⟩
      · rename_i hmc
        rw [if_neg hmc] at f5
        obtain ⟨hc, pre, hp, hu⟩ := f5
        exact ⟨hc, pre, (List.prefix_append ..).trans hp, hu⟩

/-- Instance of C3 (amended): the handle returned for 239.1.1.1:5004 on `linuxPlatform`. -/
theorem C3_returned_handle_is_joined_or_connected_witness :
    ∃ loc rem i j L R,
      (mkOpenWorld [groupCand] [hostCand] true true).vlc_getaddrinfo (some "239.1.1.1") 5004
        { ai_socktype := SOCK_DGRAM, ai_protocol := IPPROTO_UDP, ai_flags := AI_PASSIVE }
        = Except.ok loc
      ∧ (mkOpenWorld [groupCand] [hostCand] true true).vlc_getaddrinfo none 0
        { ai_socktype := SOCK_DGRAM, ai_protocol := IPPROTO_UDP, ai_flags := AI_PASSIVE }
        = Except.ok rem
      ∧ loc[i]? = some L ∧ rem[j]? = some R
      ∧ 3 = (mkOpenWorld [groupCand] [hostCand] true true).net_Socket i
      ∧ R.ai_family = L.ai_family ∧ R.ai_socktype = L.ai_socktype
      ∧ R.ai_protocol = L.ai_protocol
      ∧ (¬(linuxPlatform.WIN32 = true
            ∧ (mkOpenWorld [groupCand] [hostCand] true true).net_SockAddrIsMulticast
                L.ai_addr L.ai_addrlen = true
            ∧ linuxPlatform.sizeof_sockaddr_storage ≥ L.ai_addrlen) →
          (mkOpenWorld [groupCand] [hostCand] true true).bind i = true
            ∧ Event.bind 3 L.ai_addr L.ai_addrlen true ∈ joinedTrace)
      ∧ (if (mkOpenWorld [groupCand] [hostCand] true true).net_SockAddrIsMulticast
              L.ai_addr L.ai_addrlen = true then
          ∃ t0, [] <+: t0 ∧ net_SourceSubscribe linuxPlatform plainConfig
            (mkOpenWorld [groupCand] [hostCand] true true) 3 (some R.ai_addr) R.ai_addrlen
            L.ai_addr L.ai_addrlen t0 = (Ret.val 0, joinedTrace)
        else
          (mkOpenWorld [groupCand] [hostCand] true true).connect i j = ConnRes.ok
            ∧ ∃ pre, [] <+: pre
              ∧ joinedTrace = pre ++ [Event.connect 3 R.ai_addr R.ai_addrlen ConnRes.ok]) :=
  C3_returned_handle_is_joined_or_connected linuxPlatform plainConfig
    (mkOpenWorld [groupCand] [hostCand] true true) (some "239.1.1.1") 5004 none 0 []
    joinedTrace 3
    (by simp [__net_OpenUDP, mkOpenWorld, openLocalLoop, openRemoteLoop, openOptions,
          sys_setsockopt, linuxPlatform, groupCand, hostCand, group4, hostAddr,
          net_SourceSubscribe_unfold, subscribeInterface, plainConfig, normalizeSource,
          joinAttempts, unifiedJoin, SockOpt.isJoin, joinedTrace, SOCK_DGRAM, IPPROTO_UDP,
          AI_PASSIVE])
    (by decide)

/-- C9: `__net_ConnectUDP` called with port `0` consults the resolver with port `1234`,
and called with a port `p` other than `0` consults it with `p`; the resolution is the
first thing the call does.  `__net_OpenUDP` consults the resolver first with the server
host and server port, then (when that succeeded) with the bind host and bind port,
both ports as given. -/
theorem C9_port_zero_becomes_1234_outbound_only (P : Platform) (C : Config) (W : World)
    (psz_host : Option String) (i_hlim : Int) (psz_bind : Option String) (i_bind : Int)
    (psz_server : Option String) (i_server : Int) (t : Trace) :
    (∃ tr, (__net_ConnectUDP P C W psz_host 0 i_hlim t).2
        = t ++ Event.getaddrinfo psz_host 1234
            { ai_socktype := SOCK_DGRAM, ai_protocol := 0, ai_flags := 0 }
            (W.vlc_getaddrinfo psz_host 1234
              { ai_socktype := SOCK_DGRAM, ai_protocol := 0, ai_flags := 0 }).toBool :: tr)
    ∧ (∀ p : Int, p ≠ 0 → ∃ tr, (__net_ConnectUDP P C W psz_host p i_hlim t).2
        = t ++ Event.getaddrinfo psz_host p
            { ai_socktype := SOCK_DGRAM, ai_protocol := 0, ai_flags := 0 }
            (W.vlc_getaddrinfo psz_host p
              { ai_socktype := SOCK_DGRAM, ai_protocol := 0, ai_flags := 0 }).toBool :: tr)
    ∧ (∃ tr, (__net_OpenUDP P C W psz_bind i_bind psz_server i_server t).2
        = t ++ Event.getaddrinfo psz_server i_server
            { ai_socktype := SOCK_DGRAM, ai_protocol := IPPROTO_UDP, ai_flags := AI_PASSIVE }
            (W.vlc_getaddrinfo psz_server i_server
              { ai_socktype := SOCK_DGRAM, ai_protocol := IPPROTO_UDP,
                ai_flags := AI_PASSIVE }).toBool :: tr
        ∧ ((W.vlc_getaddrinfo psz_server i_server
              { ai_socktype := SOCK_DGRAM, ai_protocol := IPPROTO_UDP,
                ai_flags := AI_PASSIVE }).toBool = true →
            ∃ tr2, tr = Event.getaddrinfo psz_bind i_bind
              { ai_socktype := SOCK_DGRAM, ai_protocol := IPPROTO_UDP,
                ai_flags := AI_PASSIVE }
              (W.vlc_getaddrinfo psz_bind i_bind
                { ai_socktype := SOCK_DGRAM, ai_protocol := IPPROTO_UDP,
                  ai_flags := AI_PASSIVE }).toBool :: tr2)) := by
  have hconn : ∀ p : Int, ∃ tr, (__net_ConnectUDP P C W psz_host p i_hlim t).2
      = t ++ Event.getaddrinfo psz_host (if p = 0 then 1234 else p)
          { ai_socktype := SOCK_DGRAM, ai_protocol := 0, ai_flags := 0 }
          (W.vlc_getaddrinfo psz_host (if p = 0 then 1234 else p)
            { ai_socktype := SOCK_DGRAM, ai_protocol := 0, ai_flags := 0 }).toBool :: tr := by
    intro p
    cases hres : W.vlc_getaddrinfo psz_host (if p = 0 then 1234 else p)
        { ai_socktype := SOCK_DGRAM, ai_protocol := 0, ai_flags := 0 } with
    | error e =>
      refine ⟨[Event.msg Msg.cannotResolve], ?_⟩
      unfold __net_ConnectUDP
      simp only [hres]
      simp [Except.toBool]
    | ok res =>
      rw [connectUDP_resolved P C W psz_host p i_hlim t res hres]
      obtain ⟨tr, h1, -⟩ := connectLoop_extends P C W (if i_hlim < 1 then C.ttl else i_hlim)
        res 0 false (t ++ [Event.getaddrinfo psz_host (if p = 0 then 1234 else p)
          { ai_socktype := SOCK_DGRAM, ai_protocol := 0, ai_flags := 0 } true])
      generalize connectLoop P C W (if i_hlim < 1 then C.ttl else i_hlim)
        res 0 false (t ++ [Event.getaddrinfo psz_host (if p = 0 then 1234 else p)
          { ai_socktype := SOCK_DGRAM, ai_protocol := 0, ai_flags := 0 } true]) = r at h1
      by_cases ha : r.1.1 = -1
      · by_cases hb : r.1.2 = true
        · rw [if_pos ha, if_pos hb, h1]
          exact ⟨tr ++ [Event.msg Msg.hostUnreachable], by simp [Except.toBool]⟩
        · rw [if_pos ha, if_neg hb, h1]
          exact ⟨tr, by simp [Except.toBool]⟩
      · rw [if_neg ha, h1]
        exact ⟨tr, by simp [Except.toBool]⟩
  refine ⟨by simpa using hconn 0, ?_, ?_⟩
  · intro p hp
    simpa [hp] using hconn p
  · unfold __net_OpenUDP
    dsimp only
    cases hrem : W.vlc_getaddrinfo psz_server i_server
        { ai_socktype := SOCK_DGRAM, ai_protocol := IPPROTO_UDP, ai_flags := AI_PASSIVE } with
    | error e => exact ⟨[Event.msg Msg.cannotResolve], by simp [Except.toBool]⟩
    | ok rem =>
      dsimp only
      cases hloc : W.vlc_getaddrinfo psz_bind i_bind
          { ai_socktype := SOCK_DGRAM, ai_protocol := IPPROTO_UDP, ai_flags := AI_PASSIVE } with
      | error e =>
        exact ⟨[Event.getaddrinfo psz_bind i_bind
          { ai_socktype := SOCK_DGRAM, ai_protocol := IPPROTO_UDP, ai_flags := AI_PASSIVE }
          false, Event.msg Msg.cannotResolve], by simp [Except.toBool],
          fun _ => ⟨[Event.msg Msg.cannotResolve], by simp [Except.toBool]⟩⟩
      | ok loc =>
        dsimp only
        obtain ⟨tr, htr⟩ := openLocalLoop_extends P C W rem loc 0
          (t ++ [Event.getaddrinfo psz_server i_server
            { ai_socktype := SOCK_DGRAM, ai_protocol := IPPROTO_UDP, ai_flags := AI_PASSIVE }
            true,
            Event.getaddrinfo psz_bind i_bind
            { ai_socktype := SOCK_DGRAM, ai_protocol := IPPROTO_UDP, ai_flags := AI_PASSIVE }
            true])
        rw [← htr]
        exact ⟨Event.getaddrinfo psz_bind i_bind
          { ai_socktype := SOCK_DGRAM, ai_protocol := IPPROTO_UDP, ai_flags := AI_PASSIVE }
          true :: tr, by simp [Except.toBool], fun _ => ⟨tr, by simp [Except.toBool]⟩⟩

/-- Instance of C9: `__net_ConnectUDP` to 198.51.100.7 with port 0. -/
theorem C9_port_zero_becomes_1234_outbound_only_witness :
    ∃ tr, (__net_ConnectUDP linuxPlatform plainConfig
        (mkWorld [hostCand] (fun _ _ => ConnRes.ok) true) (some "198.51.100.7") 0 0 []).2
      = [] ++ Event.getaddrinfo (some "198.51.100.7") 1234
          { ai_socktype := SOCK_DGRAM, ai_protocol := 0, ai_flags := 0 }
          ((mkWorld [hostCand] (fun _ _ => ConnRes.ok) true).vlc_getaddrinfo
            (some "198.51.100.7") 1234
            { ai_socktype := SOCK_DGRAM, ai_protocol := 0, ai_flags := 0 }).toBool :: tr :=
  (C9_port_zero_becomes_1234_outbound_only linuxPlatform plainConfig
    (mkWorld [hostCand] (fun _ _ => ConnRes.ok) true) (some "198.51.100.7") 0 none 0 none 0
    []).1

/-! ## Operator misconfiguration -/

/-- The value and the flow of `__net_ConnectUDP` are fixed by the resolver and by the
outcomes of `net_Socket` and `connect`: neither the platform, nor the configuration, nor
the hop limit, nor any option call has a part in them. -/
theorem connectUDP_outcome (P : Platform) (C : Config) (W : World)
    (psz_host : Option String) (i_port i_hlim : Int) (t : Trace) :
    (__net_ConnectUDP P C W psz_host i_port i_hlim t).1
      = (match W.vlc_getaddrinfo psz_host (if i_port = 0 then 1234 else i_port)
            { ai_socktype := SOCK_DGRAM, ai_protocol := 0, ai_flags := 0 } with
          | Except.error _ => -1
          | Except.ok res => (connectResult W.net_Socket W.connect res 0 false).1)
    ∧ flow (__net_ConnectUDP P C W psz_host i_port i_hlim t).2
      = flow t ++ (match W.vlc_getaddrinfo psz_host (if i_port = 0 then 1234 else i_port)
            { ai_socktype := SOCK_DGRAM, ai_protocol := 0, ai_flags := 0 } with
          | Except.error _ =>
            [Event.getaddrinfo psz_host (if i_port = 0 then 1234 else i_port)
              { ai_socktype := SOCK_DGRAM, ai_protocol := 0, ai_flags := 0 } false]
          | Except.ok res =>
            Event.getaddrinfo psz_host (if i_port = 0 then 1234 else i_port)
              { ai_socktype := SOCK_DGRAM, ai_protocol := 0, ai_flags := 0 } true
              :: connectFlow W.net_Socket W.connect res 0) := by
  cases hres : W.vlc_getaddrinfo psz_host (if i_port = 0 then 1234 else i_port)
      { ai_socktype := SOCK_DGRAM, ai_protocol := 0, ai_flags := 0 } with
  | error e =>
    unfold __net_ConnectUDP
    simp only [hres]
    simp [Event.isFlow]
  | ok res =>
    rw [connectUDP_resolved P C W psz_host i_port i_hlim t res hres]
    have hr := connectLoop_result P C W (if i_hlim < 1 then C.ttl else i_hlim) res 0 false
      (t ++ [Event.getaddrinfo psz_host (if i_port = 0 then 1234 else i_port)
        { ai_socktype := SOCK_DGRAM, ai_protocol := 0, ai_flags := 0 } true])
    have hf := connectLoop_flow P C W (if i_hlim < 1 then C.ttl else i_hlim) res 0 false
      (t ++ [Event.getaddrinfo psz_host (if i_port = 0 then 1234 else i_port)
        { ai_socktype := SOCK_DGRAM, ai_protocol := 0, ai_flags := 0 } true])
    generalize connectLoop P C W (if i_hlim < 1 then C.ttl else i_hlim) res 0 false
      (t ++ [Event.getaddrinfo psz_host (if i_port = 0 then 1234 else i_port)
        { ai_socktype := SOCK_DGRAM, ai_protocol := 0, ai_flags := 0 } true]) = r at hr hf
    dsimp only
    by_cases ha : r.1.1 = -1
    · by_cases hb : r.1.2 = true
      · rw [if_pos ha, if_pos hb]
        refine ⟨by rw [← hr, ha], ?_⟩
        simp [hf, Event.isFlow]
      · rw [if_pos ha, if_neg hb]
        refine ⟨by rw [← hr, ha], ?_⟩
        simp [hf, Event.isFlow]
    · rw [if_neg ha]
      refine ⟨by rw [← hr], ?_⟩
      simp [hf, Event.isFlow]

/-- C7 as stated fails.  In `__net_ConnectUDP` an interface name that does not resolve is
reported and the candidate is connected all the same: the call returns its descriptor.
In `__net_OpenUDP` the negotiation on the multicast candidate fails, its socket is
closed, and the next local candidate is tried and returned. -/
theorem C7_misconfigured_interface_is_not_fatal :
    (mkWorld [hostCand] (fun _ _ => ConnRes.ok) true).if_nametoindex "eth9" = 0
    ∧ (__net_ConnectUDP linuxPlatform ifaceConfig
        (mkWorld [hostCand] (fun _ _ => ConnRes.ok) true) (some "198.51.100.7") 1234 0 []).1 = 3
    ∧ (__net_OpenUDP linuxPlatform ifaceConfig
        (mkOpenWorld [groupCand, localCand] [hostCand] true true)
        (some "239.1.1.1") 5004 none 0 []).1 = Ret.val 4 := by
  refine ⟨rfl, ?_, ?_⟩
  · rw [(connectUDP_outcome ..).1]
    decide
  · simp [__net_OpenUDP, mkOpenWorld, openLocalLoop, openRemoteLoop, openOptions,
      sys_setsockopt, linuxPlatform, groupCand, localCand, hostCand, group4, hostAddr,
      net_SourceSubscribe_unfold, subscribeInterface, ifaceConfig, SOCK_DGRAM, IPPROTO_UDP,
      AI_PASSIVE]

theorem subscribe_bad_interface (P : Platform) (C : Config) (W : World)
    (hbad : ∃ name, C.miface = some name ∧ name ≠ "" ∧ W.if_nametoindex name = 0)
    (fd : Int) (src : Option SockAddr) (srclen : Nat) (grp : SockAddr) (grplen : Nat)
    (t : Trace) :
    net_SourceSubscribe P C W fd src srclen grp grplen t
      = (Ret.val (-1), t ++ [Event.msg Msg.invalidMcastInterface]) := by
  obtain ⟨name, h1, h2, h3⟩ := hbad
  have hI : subscribeInterface C W = none := by
    simp [subscribeInterface, h1, h2, h3]
  rw [net_SourceSubscribe_unfold, hI]

/-- C7, amended: whatever the configured interface name and interface address are, in
particular when the name does not resolve or the address is malformed,
`__net_ConnectUDP` absorbs them: the call returns the same value and issues the same
resolution, socket, connect and close calls as with both settings absent.  When the
interface name is non-empty and does not resolve, every call of
`net_SourceSubscribe` fails at once, before any join primitive and without retry, so
that `__net_OpenUDP` returns no handle for a multicast local candidate: a handle it
returns is the socket of a local candidate that is not multicast. -/
theorem C7_misconfiguration_absorbed_outbound_fails_join (P : Platform) (C : Config)
    (W : World) :
    (∀ (psz_host : Option String) (i_port i_hlim : Int) (t : Trace),
        (__net_ConnectUDP P C W psz_host i_port i_hlim t).1
          = (__net_ConnectUDP P { C with miface := none, miface_addr := none } W
              psz_host i_port i_hlim t).1
        ∧ flow (__net_ConnectUDP P C W psz_host i_port i_hlim t).2
          = flow (__net_ConnectUDP P { C with miface := none, miface_addr := none } W
              psz_host i_port i_hlim t).2)
    ∧ ((∃ name, C.miface = some name ∧ name ≠ "" ∧ W.if_nametoindex name = 0) →
        (∀ (fd : Int) (src : Option SockAddr) (srclen : Nat) (grp : SockAddr) (grplen : Nat)
            (t : Trace),
            net_SourceSubscribe P C W fd src srclen grp grplen t
              = (Ret.val (-1), t ++ [Event.msg Msg.invalidMcastInterface]))
        ∧ (∀ (psz_bind : Option String) (i_bind : Int) (psz_server : Option String)
            (i_server : Int) (t u : Trace) (fd : Int),
            __net_OpenUDP P C W psz_bind i_bind psz_server i_server t = (Ret.val fd, u) →
            fd ≠ -1 →
            ∃ loc i L, W.vlc_getaddrinfo psz_bind i_bind
                { ai_socktype := SOCK_DGRAM, ai_protocol := IPPROTO_UDP,
                  ai_flags := AI_PASSIVE } = Except.ok loc
              ∧ loc[i]? = some L ∧ fd = W.net_Socket i
              ∧ W.net_SockAddrIsMulticast L.ai_addr L.ai_addrlen = false)) := by
  refine ⟨?_, ?_⟩
  · intro psz_host i_port i_hlim t
    obtain ⟨a1, a2⟩ := connectUDP_outcome P C W psz_host i_port i_hlim t
    obtain ⟨b1, b2⟩ := connectUDP_outcome P { C with miface := none, miface_addr := none } W
      psz_host i_port i_hlim t
    exact ⟨a1.trans b1.symm, a2.trans b2.symm⟩
  · intro hname
    refine ⟨fun fd src srclen grp grplen t =>
      subscribe_bad_interface P C W hname fd src srclen grp grplen t, ?_⟩
    intro psz_bind i_bind psz_server i_server t u fd h hfd
    unfold __net_OpenUDP at h
    dsimp only at h
    split at h
    · simp only [Prod.mk.injEq, Ret.val.injEq] at h
      exact absurd h.1.symm hfd
    · rename_i rem hrem
      split at h
      · simp only [Prod.mk.injEq, Ret.val.injEq] at h
        exact absurd h.1.symm hfd
      · rename_i loc hloc
        obtain ⟨m, L, j, R, hL, -, hfd', -, -, -, -, f5⟩ :=
          openLocalLoop_found P C W rem loc 0 _ u fd h hfd
        simp only [Nat.zero_add] at hfd'
        refine ⟨loc, m, L, hloc, hL, hfd', ?_⟩
        by_contra hmc
        have hmc' : W.net_SockAddrIsMulticast L.ai_addr L.ai_addrlen = true := by
          simpa using hmc
        rw [if_pos hmc'] at f5
        obtain ⟨t0, -, hsub⟩ := f5
        rw [subscribe_bad_interface P C W hname] at hsub
        simp at hsub

/-- Instance of C7 (amended): the interface name `eth9` does not resolve. -/
theorem C7_misconfiguration_absorbed_outbound_fails_join_witness :
    (__net_ConnectUDP linuxPlatform ifaceConfig
        (mkWorld [hostCand] (fun _ _ => ConnRes.ok) true) (some "198.51.100.7") 1234 0 []).1
      = (__net_ConnectUDP linuxPlatform { ifaceConfig with miface := none, miface_addr := none }
        (mkWorld [hostCand] (fun _ _ => ConnRes.ok) true) (some "198.51.100.7") 1234 0 []).1
    ∧ net_SourceSubscribe linuxPlatform ifaceConfig
        (mkWorld [hostCand] (fun _ _ => ConnRes.ok) true) 5 (some hostAddr) 16 group4 16 []
      = (Ret.val (-1), [] ++ [Event.msg Msg.invalidMcastInterface]) :=
  ⟨((C7_misconfiguration_absorbed_outbound_fails_join linuxPlatform ifaceConfig
      (mkWorld [hostCand] (fun _ _ => ConnRes.ok) true)).1 (some "198.51.100.7") 1234 0 []).1,
   ((C7_misconfiguration_absorbed_outbound_fails_join linuxPlatform ifaceConfig
      (mkWorld [hostCand] (fun _ _ => ConnRes.ok) true)).2 ⟨"eth9", rfl, by decide, rfl⟩).1
      5 (some hostAddr) 16 group4 16 []⟩

/-! ## Source normalisation for an IPv6 group -/

/-- For an IPv6 group, an absent source and a wildcard source both reach line 359 with
`src == NULL`, where `sin6_scope_id` is read through it. -/
theorem normalizeSource_ipv6_any_source (src : Option SockAddr) (grp : SockAddr) (iid : Nat)
    (hg : grp.sa_family = Family.AF_INET6)
    (hs : src = none ∨ ∃ s, src = some s ∧ s.sin6_addr = 0) :
    normalizeSource src grp iid = Normalized.nullDeref := by
  unfold normalizeSource
  rcases hs with rfl | ⟨s, rfl, hz⟩
  · simp [hg]
  · simp [hg, hz]

/-- For an IPv6 group and a source that is present and not the wildcard, a nonzero scope
identifier of the source replaces the configured index. -/
theorem normalizeSource_ipv6_scoped (s : SockAddr) (grp : SockAddr) (iid : Nat)
    (hg : grp.sa_family = Family.AF_INET6) (hz : s.sin6_addr ≠ 0)
    (hsc : s.sin6_scope_id ≠ 0) :
    normalizeSource (some s) grp iid
      = Normalized.go Level.SOL_IPV6 (some s) s.sin6_scope_id := by
  unfold normalizeSource
  simp [hg, hz, hsc]

/-- C11, the defect: with the interface name resolving to index 2, the any-source
request `net_Subscribe` for the IPv6 group ff3e::1, and the request with the wildcard
source `::`, both end in a read of `sin6_scope_id` through the `NULL` source (line 359)
before any join is issued, instead of a join carrying index 2.  The IPv4 sibling case
(lines 364-370) does drop the source without reading it: the same request for 239.1.1.1
issues its join with index 2.  The other half of the claim holds: the source fe80::7
with scope identifier 7 is joined with index 7. -/
theorem C11_ipv6_any_source_reads_null_source :
    net_Subscribe linuxPlatform ifaceConfig ifaceWorld 5 group6 28 [] = (Ret.fault, [])
    ∧ net_SourceSubscribe linuxPlatform ifaceConfig ifaceWorld 5 (some wildcard6) 28
        group6 28 [] = (Ret.fault, [])
    ∧ net_Subscribe linuxPlatform ifaceConfig ifaceWorld 5 group4 16 []
      = (Ret.val 0,
          [Event.setsockopt 5 (SockOpt.MCAST_JOIN_GROUP Level.SOL_IP 2 group4 16) true])
    ∧ net_SourceSubscribe linuxPlatform ifaceConfig ifaceWorld 5 (some scopedSource6) 28
        group6 28 []
      = (Ret.val 0,
          [Event.setsockopt 5
            (SockOpt.MCAST_JOIN_SOURCE_GROUP Level.SOL_IPV6 7 group6 28 scopedSource6 28)
            true]) := by
  have hI : subscribeInterface ifaceConfig ifaceWorld = some 2 := by
    simp [subscribeInterface, ifaceConfig, ifaceWorld, mkWorld]
  refine ⟨?_, ?_, ?_, ?_⟩
  · rw [net_Subscribe_eq, net_SourceSubscribe_unfold, hI]
    simp [normalizeSource_ipv6_any_source none group6 2 rfl (Or.inl rfl)]
  · rw [net_SourceSubscribe_unfold, hI]
    simp [normalizeSource_ipv6_any_source (some wildcard6) group6 2 rfl
      (Or.inr ⟨wildcard6, rfl, rfl⟩)]
  · rw [net_Subscribe_eq, net_SourceSubscribe_unfold, hI]
    simp [normalizeSource, group4, joinAttempts, unifiedJoin, sys_setsockopt,
      linuxPlatform, ifaceWorld, mkWorld]
  · rw [net_SourceSubscribe_unfold, hI]
    simp [normalizeSource, group6, scopedSource6, joinAttempts, unifiedJoin, sys_setsockopt,
      linuxPlatform, ifaceWorld, mkWorld]

end Udp
